import Mathlib

/-!
Verification of the resilient caching fetch layer of the f1-global-tour-backend
repository: circuit breaker (`CircuitBreakerService`), Redis-backed cache
(`CacheService`), cached upstream client (`CachedOpenF1ClientService` /
`OpenF1ClientService`) and the pure data decoders (`F1TransformationsUtil`).

The TypeScript services are shallowly embedded as pure Lean functions:
mutable service state becomes explicit state passing, `async` control flow
becomes sequential composition (the runtime is single-threaded and every
breaker/cache mutation is synchronous), a thrown exception becomes the
`Except.error` constructor, and the outcome of an actual network exchange is
an explicit input of the embedded function.  Numeric fields are modeled as
`Nat`/`Int`: every value the domain feeds through these code paths (session
keys, driver numbers, lap numbers, segment codes, DRS codes, millisecond
timestamps) is an integer, and none of the embedded code performs fractional
arithmetic on them.
-/

/-- Errors thrown by the embedded code: either a plain JavaScript `Error`
with a message, or a NestJS `HttpException` with a message and an HTTP
status code. -/
inductive JsError where
  | jsError (message : String)
  | httpException (message : String) (status : Nat)
deriving DecidableEq, Repr

/-- States of the circuit breaker (`CircuitBreakerState` enum in
`circuit-breaker.service.ts`). -/
inductive CircuitBreakerState where
  | CLOSED
  | OPEN
  | HALF_OPEN
deriving DecidableEq, Repr

/-- Configuration of the breaker (`CircuitBreakerOptions`).  The service
instance hard-codes `failureThreshold = 5`, `recoveryTimeout = 30000`,
`monitoringPeriod = 10000` (see `defaultCircuitBreakerOptions`); the embedding
keeps the options as a parameter so that properties can be stated for every
threshold. -/
structure CircuitBreakerOptions where
  failureThreshold : Nat
  recoveryTimeout : Nat
  monitoringPeriod : Nat
deriving DecidableEq, Repr

/-- The option values of the service instance in the source. -/
def defaultCircuitBreakerOptions : CircuitBreakerOptions :=
  { failureThreshold := 5, recoveryTimeout := 30000, monitoringPeriod := 10000 }

/-- Mutable fields of `CircuitBreakerService`.  Timestamps are milliseconds
(`Date.now()`), modeled as `Int`. -/
structure CircuitBreakerService where
  state : CircuitBreakerState
  failureCount : Nat
  lastFailureTime : Option Int
  totalRequests : Nat
  successfulRequests : Nat
  failedRequests : Nat
deriving DecidableEq, Repr

/-- Field initializers of `CircuitBreakerService`: `CLOSED`, all counters
zero, no recorded failure. -/
def CircuitBreakerService.init : CircuitBreakerService :=
  { state := .CLOSED, failureCount := 0, lastFailureTime := none,
    totalRequests := 0, successfulRequests := 0, failedRequests := 0 }

/-- Snapshot returned by `getStats()`. -/
structure CircuitBreakerStats where
  state : CircuitBreakerState
  failureCount : Nat
  lastFailureTime : Option Int
  totalRequests : Nat
  successfulRequests : Nat
  failedRequests : Nat
deriving DecidableEq, Repr

/-- Embedding of `CircuitBreakerService.getStats`. -/
def CircuitBreakerService.getStats (b : CircuitBreakerService) : CircuitBreakerStats :=
  { state := b.state, failureCount := b.failureCount,
    lastFailureTime := b.lastFailureTime, totalRequests := b.totalRequests,
    successfulRequests := b.successfulRequests, failedRequests := b.failedRequests }

/-- Embedding of `CircuitBreakerService.reset`: every field is restored to
its initial value. -/
def CircuitBreakerService.reset (_b : CircuitBreakerService) : CircuitBreakerService :=
  CircuitBreakerService.init

/-- Embedding of the private `onSuccess` method: increment the success
counter, reset the consecutive-failure counter, and close the breaker if it
was half-open. -/
def CircuitBreakerService.onSuccess (b : CircuitBreakerService) : CircuitBreakerService :=
  let b := { b with successfulRequests := b.successfulRequests + 1, failureCount := 0 }
  if b.state = .HALF_OPEN then { b with state := .CLOSED } else b

/-- Embedding of the private `onFailure` method: increment the failure
counters, record the failure time, and open the breaker once the
consecutive-failure counter reaches the threshold. -/
def CircuitBreakerService.onFailure (b : CircuitBreakerService)
    (o : CircuitBreakerOptions) (now : Int) : CircuitBreakerService :=
  let b := { b with failedRequests := b.failedRequests + 1,
                    failureCount := b.failureCount + 1,
                    lastFailureTime := some now }
  if o.failureThreshold ≤ b.failureCount then { b with state := .OPEN } else b

/-- Embedding of the private `shouldAttemptRecovery` method:
`Date.now() - lastFailureTime >= recoveryTimeout`, false when no failure has
been recorded. -/
def CircuitBreakerService.shouldAttemptRecovery (b : CircuitBreakerService)
    (o : CircuitBreakerOptions) (now : Int) : Bool :=
  match b.lastFailureTime with
  | none => false
  | some t => (o.recoveryTimeout : Int) ≤ now - t

/-- Behaviour of the caller-supplied async `operation` passed to `execute`,
seen from the breaker: it either resolves with a value or rejects with an
error. -/
inductive ActionOutcome (α : Type) where
  | succeeds (v : α)
  | fails (e : JsError)
deriving DecidableEq, Repr

/-- Result of one `execute` call: the value returned or error thrown
(`result`), the breaker state after the call (`breaker`), and whether the
supplied operation was actually invoked (`invoked`) - the latter is
observational instrumentation used to state the probe properties. -/
structure ExecResult (α : Type) where
  result : Except JsError α
  breaker : CircuitBreakerService
  invoked : Bool

/-- The `try { await operation() } catch` part of `execute`: on success run
`onSuccess` and return the value; on failure run `onFailure` and return the
fallback when one was supplied and the (just incremented) failure counter has
reached the threshold, otherwise rethrow. -/
def CircuitBreakerService.runOperation (b : CircuitBreakerService)
    (o : CircuitBreakerOptions) (now : Int) (act : ActionOutcome α)
    (fallbackData : Option α) : ExecResult α :=
  match act with
  | .succeeds v => { result := .ok v, breaker := b.onSuccess, invoked := true }
  | .fails e =>
    let b := b.onFailure o now
    match fallbackData with
    | some f =>
      if o.failureThreshold ≤ b.failureCount then
        { result := .ok f, breaker := b, invoked := true }
      else
        { result := .error e, breaker := b, invoked := true }
    | none => { result := .error e, breaker := b, invoked := true }

/-- Embedding of `CircuitBreakerService.execute`: count the request; in the
`OPEN` state either transition to `HALF_OPEN` (recovery interval elapsed) and
run the operation, or reject without invoking it (returning the fallback when
supplied, else throwing the breaker-open error); otherwise run the
operation. -/
def CircuitBreakerService.execute (b : CircuitBreakerService)
    (o : CircuitBreakerOptions) (now : Int) (act : ActionOutcome α)
    (fallbackData : Option α) : ExecResult α :=
  let b := { b with totalRequests := b.totalRequests + 1 }
  if b.state = .OPEN then
    if b.shouldAttemptRecovery o now then
      CircuitBreakerService.runOperation { b with state := .HALF_OPEN } o now act fallbackData
    else
      match fallbackData with
      | some f => { result := .ok f, breaker := b, invoked := false }
      | none =>
        { result := .error (.jsError "Circuit Breaker is OPEN - Service temporarily unavailable"),
          breaker := b, invoked := false }
  else
    CircuitBreakerService.runOperation b o now act fallbackData

/-- Breaker states reachable by any sequence of `execute` calls from the
freshly constructed service.  `reset` re-establishes exactly the initial
state, so post-reset states are covered by `init`. -/
inductive CircuitBreakerService.Reachable (o : CircuitBreakerOptions) :
    CircuitBreakerService → Prop where
  | init : CircuitBreakerService.Reachable o CircuitBreakerService.init
  | step {α : Type} (b : CircuitBreakerService) (now : Int) (act : ActionOutcome α)
      (fallbackData : Option α) : CircuitBreakerService.Reachable o b →
      CircuitBreakerService.Reachable o ((b.execute o now act fallbackData).breaker)

/-!
Data records of `openf1.interface.ts` and the query-parameter interfaces of
`query-params.interface.ts`.  Optional (`?`) and nullable fields become
`Option`; the embedded layer carries these records opaquely, performing no
arithmetic on them.
-/

/-- Record shape of `OpenF1Driver`. -/
structure OpenF1Driver where
  meeting_key : Nat
  session_key : Nat
  driver_number : Nat
  full_name : String
  name_acronym : String
  team_name : String
  team_colour : String
deriving DecidableEq, Repr

/-- Record shape of `OpenF1Lap` (duration and speed fields are carried
opaquely as integers scaled by the caller; the verified layer never computes
with them). -/
structure OpenF1Lap where
  meeting_key : Nat
  session_key : Nat
  driver_number : Nat
  lap_number : Nat
  date_start : String
  duration_sector_1 : Option Int
  duration_sector_2 : Option Int
  duration_sector_3 : Option Int
  lap_duration : Option Int
  is_pit_out_lap : Bool
  segments_sector_1 : Option (List Nat)
  segments_sector_2 : Option (List Nat)
  segments_sector_3 : Option (List Nat)
deriving DecidableEq, Repr

/-- Record shape of `OpenF1Interval`. -/
structure OpenF1Interval where
  meeting_key : Nat
  session_key : Nat
  driver_number : Nat
  date : String
  gap_to_leader : Option Int
  interval : Int
deriving DecidableEq, Repr

/-- Record shape of `OpenF1Stint`. -/
structure OpenF1Stint where
  meeting_key : Nat
  session_key : Nat
  driver_number : Nat
  stint_number : Nat
  lap_start : Nat
  lap_end : Nat
  compound : String
  tyre_age_at_start : Nat
deriving DecidableEq, Repr

/-- Query parameters of `GET /sessions`. -/
structure SessionsQueryParams where
  country_name : Option String
  year : Option String
  session_key : Option Nat
  session_name : Option String
deriving DecidableEq, Repr

/-- Query parameters of `GET /drivers`. -/
structure DriversQueryParams where
  session_key : Nat
  driver_number : Option Nat
deriving DecidableEq, Repr

/-- Query parameters of `GET /laps`. -/
structure LapsQueryParams where
  session_key : Nat
  driver_number : Option Nat
  lap_number : Option Nat
deriving DecidableEq, Repr

/-- Query parameters of `GET /car_data`. -/
structure CarDataQueryParams where
  session_key : Nat
  driver_number : Nat
  date_start : Option String
  date_end : Option String
deriving DecidableEq, Repr

/-- Query parameters of `GET /intervals`. -/
structure IntervalsQueryParams where
  session_key : Nat
  date : Option String
deriving DecidableEq, Repr

/-- Query parameters of `GET /race_control`. -/
structure RaceControlQueryParams where
  session_key : Option Nat
  date : Option String
  category : Option String
  flag : Option String
deriving DecidableEq, Repr

/-- Query parameters of `GET /stints`. -/
structure StintsQueryParams where
  session_key : Nat
  driver_number : Option Nat
deriving DecidableEq, Repr

/-- Outcome of the HTTP exchange performed inside a fetch operation of
`OpenF1ClientService`: a 2xx response carrying a JSON array of records, or
any transport/HTTP failure (the `catchError` handler treats every
`AxiosError` alike). -/
inductive UpstreamResponse (α : Type) where
  | ok (data : List α)
  | failure
deriving DecidableEq, Repr

/-- Maps the HTTP exchange of one fetch method to the operation the breaker
runs: a 2xx response resolves with the data, any error is rethrown as the
method's `HttpException` with status 503. -/
def upstreamOperation (resp : UpstreamResponse α) (message : String) : ActionOutcome (List α) :=
  match resp with
  | .ok data => .succeeds data
  | .failure => .fails (.httpException message 503)

/-- Embedding of `OpenF1ClientService.fetchDrivers`: the HTTP call is wrapped
by `circuitBreaker.execute` with the empty array as fallback.  The query
parameters only shape the request URL, which the abstracted
`UpstreamResponse` already accounts for. -/
def OpenF1ClientService.fetchDrivers (b : CircuitBreakerService) (o : CircuitBreakerOptions)
    (now : Int) (_params : DriversQueryParams) (resp : UpstreamResponse OpenF1Driver) :
    ExecResult (List OpenF1Driver) :=
  b.execute o now (upstreamOperation resp "Failed to fetch driver data") (some [])

/-- Embedding of `OpenF1ClientService.fetchLaps`. -/
def OpenF1ClientService.fetchLaps (b : CircuitBreakerService) (o : CircuitBreakerOptions)
    (now : Int) (_params : LapsQueryParams) (resp : UpstreamResponse OpenF1Lap) :
    ExecResult (List OpenF1Lap) :=
  b.execute o now (upstreamOperation resp "Failed to fetch lap data") (some [])

/-- Embedding of `OpenF1ClientService.fetchIntervals`. -/
def OpenF1ClientService.fetchIntervals (b : CircuitBreakerService) (o : CircuitBreakerOptions)
    (now : Int) (_params : IntervalsQueryParams) (resp : UpstreamResponse OpenF1Interval) :
    ExecResult (List OpenF1Interval) :=
  b.execute o now (upstreamOperation resp "Failed to fetch interval data") (some [])

/-- Embedding of `OpenF1ClientService.fetchStints`. -/
def OpenF1ClientService.fetchStints (b : CircuitBreakerService) (o : CircuitBreakerOptions)
    (now : Int) (_params : StintsQueryParams) (resp : UpstreamResponse OpenF1Stint) :
    ExecResult (List OpenF1Stint) :=
  b.execute o now (upstreamOperation resp "Failed to fetch stint data") (some [])

/-!
Embedding of `CacheService` (cache.service.ts).  The Redis client is modeled
by its readiness flag, its key-value contents, and a `failing` flag meaning
that every issued command errors (connectivity lost mid-call).  JSON
serialization is opaque to the cache (the spec treats values as blobs), so a
stored value is a tagged `CacheValue`; `JSON.stringify`/`JSON.parse` become
the injection into and projection out of the tag.
-/

/-- Serialized cache payloads of the replay data categories cached by
`CachedOpenF1ClientService`. -/
inductive CacheValue where
  | drivers (v : List OpenF1Driver)
  | laps (v : List OpenF1Lap)
  | intervals (v : List OpenF1Interval)
  | stints (v : List OpenF1Stint)
deriving DecidableEq, Repr

/-- Model of the Redis client held by `CacheService`: readiness flag, stored
entries `(key, value, remaining ttl in seconds)`, and whether issued commands
currently error. -/
structure RedisClient where
  isReady : Bool
  store : List (String × CacheValue × Nat)
  failing : Bool
deriving DecidableEq, Repr

/-- Raw `client.get`: errors when connectivity is lost, otherwise returns the
stored value if any. -/
def RedisClient.get (c : RedisClient) (key : String) : Except JsError (Option CacheValue) :=
  if c.failing then .error (.jsError "redis command failed")
  else .ok ((c.store.find? (fun e => e.1 = key)).map (fun e => e.2.1))

/-- Raw `client.setEx`: errors when connectivity is lost, otherwise replaces
the entry under `key`. -/
def RedisClient.setEx (c : RedisClient) (key : String) (ttl : Nat) (v : CacheValue) :
    Except JsError RedisClient :=
  if c.failing then .error (.jsError "redis command failed")
  else .ok { c with store := (key, v, ttl) :: c.store.filter (fun e => e.1 ≠ key) }

/-- Raw `client.del`: errors when connectivity is lost, otherwise removes the
entry under `key`. -/
def RedisClient.del (c : RedisClient) (key : String) : Except JsError RedisClient :=
  if c.failing then .error (.jsError "redis command failed")
  else .ok { c with store := c.store.filter (fun e => e.1 ≠ key) }

/-- Raw `client.exists`: errors when connectivity is lost, otherwise counts
the keys present. -/
def RedisClient.existsCount (c : RedisClient) (key : String) : Except JsError Nat :=
  if c.failing then .error (.jsError "redis command failed")
  else .ok (if (c.store.find? (fun e => e.1 = key)).isSome then 1 else 0)

/-- Cache write options (`CacheOptions`): optional TTL in seconds. -/
structure CacheOptions where
  ttl : Option Nat
deriving DecidableEq, Repr

/-- Embedding of `CacheService.get`: skipped when the client is not ready,
any command error is caught; both cases yield a miss (`none`). -/
def CacheService.get (c : RedisClient) (key : String) : Option CacheValue :=
  if !c.isReady then none
  else
    match c.get key with
    | .error _ => none
    | .ok v => v

/-- Embedding of `CacheService.set`: skipped when the client is not ready,
any command error is caught; both cases leave the store untouched.  The TTL
is `options?.ttl || defaultTtl`, so a zero TTL (falsy in JavaScript) also
falls back to the default. -/
def CacheService.set (c : RedisClient) (defaultTtl : Nat) (key : String) (v : CacheValue)
    (options : Option CacheOptions) : RedisClient :=
  if !c.isReady then c
  else
    let ttl := match options.bind (fun os => os.ttl) with
      | some t => if t = 0 then defaultTtl else t
      | none => defaultTtl
    match c.setEx key ttl v with
    | .error _ => c
    | .ok c2 => c2

/-- Embedding of `CacheService.del`: skipped when the client is not ready,
any command error is caught; both cases leave the store untouched. -/
def CacheService.del (c : RedisClient) (key : String) : RedisClient :=
  if !c.isReady then c
  else
    match RedisClient.del c key with
    | .error _ => c
    | .ok c2 => c2

/-- Embedding of `CacheService.exists` (named `existsKey` because `exists` is
reserved in Lean): false when the client is not ready or the command errors,
otherwise whether the count equals one. -/
def CacheService.existsKey (c : RedisClient) (key : String) : Bool :=
  if !c.isReady then false
  else
    match c.existsCount key with
    | .error _ => false
    | .ok n => n = 1

/-- Embedding of `CacheService.generateSessionKey`. -/
def CacheService.generateSessionKey (sessionKey : Nat) (dataType : String) : String :=
  "session:" ++ toString sessionKey ++ ":" ++ dataType

/-- Embedding of `CacheService.generateDriverKey`. -/
def CacheService.generateDriverKey (sessionKey : Nat) (driverNumber : Nat)
    (dataType : String) : String :=
  "session:" ++ toString sessionKey ++ ":driver:" ++ toString driverNumber ++ ":" ++ dataType

/-- Embedding of `CacheService.generateLapKey`: `if (lapNumber)` is
JavaScript truthiness, so a missing or zero lap number selects the
session-wide laps key. -/
def CacheService.generateLapKey (sessionKey : Nat) (lapNumber : Option Nat) : String :=
  match lapNumber with
  | some n =>
    if n ≠ 0 then "session:" ++ toString sessionKey ++ ":lap:" ++ toString n
    else "session:" ++ toString sessionKey ++ ":laps"
  | none => "session:" ++ toString sessionKey ++ ":laps"

/-!
Embedding of `CachedOpenF1ClientService` (cached-openf1-client.service.ts):
per-category cache keys, the cache-aside read path, and the replay preload.
-/

/-- JavaScript truthiness of an optional string: absent and empty are
falsy. -/
def jsTruthyStr : Option String → Bool
  | none => false
  | some s => s ≠ ""

/-- JavaScript truthiness of an optional number: absent and zero are
falsy. -/
def jsTruthyNat : Option Nat → Bool
  | none => false
  | some n => n ≠ 0

/-- Conditional `keyParts.push` used by the sessions/race-control key
builders: append the labeled part when the parameter is truthy. -/
def pushIfStr (parts : List String) (label : String) (v : Option String) : List String :=
  match v with
  | some s => if s ≠ "" then parts ++ [label ++ s] else parts
  | none => parts

/-- Conditional `keyParts.push` for numeric parameters. -/
def pushIfNat (parts : List String) (label : String) (v : Option Nat) : List String :=
  match v with
  | some n => if n ≠ 0 then parts ++ [label ++ toString n] else parts
  | none => parts

/-- Embedding of the private `generateSessionsCacheKey`. -/
def CachedOpenF1ClientService.generateSessionsCacheKey (params : SessionsQueryParams) : String :=
  let keyParts := ["sessions"]
  let keyParts := pushIfStr keyParts "country:" params.country_name
  let keyParts := pushIfStr keyParts "year:" params.year
  let keyParts := pushIfNat keyParts "key:" params.session_key
  let keyParts := pushIfStr keyParts "name:" params.session_name
  String.intercalate ":" keyParts

/-- Embedding of the private `generateLapsCacheKey`: a truthy lap number
takes priority and selects the per-lap key (ignoring the driver number), then
a truthy driver number selects the per-driver key, else the session-wide laps
key. -/
def CachedOpenF1ClientService.generateLapsCacheKey (params : LapsQueryParams) : String :=
  if jsTruthyNat params.lap_number then
    CacheService.generateLapKey params.session_key params.lap_number
  else if jsTruthyNat params.driver_number then
    CacheService.generateDriverKey params.session_key (params.driver_number.getD 0) "laps"
  else
    CacheService.generateLapKey params.session_key none

/-- Embedding of the private `generateRaceControlCacheKey`. -/
def CachedOpenF1ClientService.generateRaceControlCacheKey
    (params : RaceControlQueryParams) : String :=
  let keyParts := ["race_control"]
  let keyParts := pushIfNat keyParts "session:" params.session_key
  let keyParts := pushIfStr keyParts "date:" params.date
  let keyParts := pushIfStr keyParts "cat:" params.category
  let keyParts := pushIfStr keyParts "flag:" params.flag
  String.intercalate ":" keyParts

/-- A fetch request of the cached client: a data category together with its
parameters.  `cacheKeyOf` collects the key computed for each category. -/
inductive FetchRequest where
  | sessions (params : SessionsQueryParams)
  | drivers (params : DriversQueryParams)
  | laps (params : LapsQueryParams)
  | carData (params : CarDataQueryParams)
  | intervals (params : IntervalsQueryParams)
  | raceControl (params : RaceControlQueryParams)
  | stints (params : StintsQueryParams)
deriving DecidableEq, Repr

/-- Cache key computed by the corresponding fetch method of
`CachedOpenF1ClientService` for each category. -/
def cacheKeyOf : FetchRequest → String
  | .sessions params => CachedOpenF1ClientService.generateSessionsCacheKey params
  | .drivers params => CacheService.generateSessionKey params.session_key "drivers"
  | .laps params => CachedOpenF1ClientService.generateLapsCacheKey params
  | .carData params =>
    CacheService.generateDriverKey params.session_key params.driver_number "telemetry"
  | .intervals params => CacheService.generateSessionKey params.session_key "intervals"
  | .raceControl params => CachedOpenF1ClientService.generateRaceControlCacheKey params
  | .stints params => CacheService.generateSessionKey params.session_key "stints"

/-- Combined state threaded through the cached client: the breaker of the
wrapped `OpenF1ClientService` plus the Redis client of `CacheService`. -/
structure CachedClientState where
  breaker : CircuitBreakerService
  redis : RedisClient
deriving DecidableEq, Repr

/-- Typed read of a cached drivers entry (`JSON.parse` of a value written
under a drivers key). -/
def CacheValue.asDrivers : Option CacheValue → Option (List OpenF1Driver)
  | some (.drivers v) => some v
  | _ => none

/-- Typed read of a cached laps entry. -/
def CacheValue.asLaps : Option CacheValue → Option (List OpenF1Lap)
  | some (.laps v) => some v
  | _ => none

/-- Typed read of a cached intervals entry. -/
def CacheValue.asIntervals : Option CacheValue → Option (List OpenF1Interval)
  | some (.intervals v) => some v
  | _ => none

/-- Typed read of a cached stints entry. -/
def CacheValue.asStints : Option CacheValue → Option (List OpenF1Stint)
  | some (.stints v) => some v
  | _ => none

/-- Embedding of `CachedOpenF1ClientService.fetchDrivers`: cache-aside with
key `session:<key>:drivers` and a 1800 s TTL on the write path.  A cached
value (even an empty array, which is truthy in JavaScript) is returned
without consulting the breaker; on a miss the upstream client is called and a
returned value is cached. -/
def CachedOpenF1ClientService.fetchDrivers (st : CachedClientState) (o : CircuitBreakerOptions)
    (defaultTtl : Nat) (now : Int) (params : DriversQueryParams)
    (resp : UpstreamResponse OpenF1Driver) :
    Except JsError (List OpenF1Driver) × CachedClientState :=
  let cacheKey := CacheService.generateSessionKey params.session_key "drivers"
  match CacheValue.asDrivers (CacheService.get st.redis cacheKey) with
  | some cachedData => (.ok cachedData, st)
  | none =>
    let step := OpenF1ClientService.fetchDrivers st.breaker o now params resp
    match step.result with
    | .ok drivers =>
      let redis := CacheService.set st.redis defaultTtl cacheKey (.drivers drivers)
        (some { ttl := some 1800 })
      (.ok drivers, { breaker := step.breaker, redis := redis })
    | .error e => (.error e, { breaker := step.breaker, redis := st.redis })

/-- Embedding of `CachedOpenF1ClientService.fetchLaps`: cache-aside with the
laps cache key and a 900 s TTL on the write path. -/
def CachedOpenF1ClientService.fetchLaps (st : CachedClientState) (o : CircuitBreakerOptions)
    (defaultTtl : Nat) (now : Int) (params : LapsQueryParams)
    (resp : UpstreamResponse OpenF1Lap) :
    Except JsError (List OpenF1Lap) × CachedClientState :=
  let cacheKey := CachedOpenF1ClientService.generateLapsCacheKey params
  match CacheValue.asLaps (CacheService.get st.redis cacheKey) with
  | some cachedData => (.ok cachedData, st)
  | none =>
    let step := OpenF1ClientService.fetchLaps st.breaker o now params resp
    match step.result with
    | .ok laps =>
      let redis := CacheService.set st.redis defaultTtl cacheKey (.laps laps)
        (some { ttl := some 900 })
      (.ok laps, { breaker := step.breaker, redis := redis })
    | .error e => (.error e, { breaker := step.breaker, redis := st.redis })

/-- Embedding of `CachedOpenF1ClientService.fetchIntervals`: cache-aside with
key `session:<key>:intervals` and a 300 s TTL on the write path. -/
def CachedOpenF1ClientService.fetchIntervals (st : CachedClientState) (o : CircuitBreakerOptions)
    (defaultTtl : Nat) (now : Int) (params : IntervalsQueryParams)
    (resp : UpstreamResponse OpenF1Interval) :
    Except JsError (List OpenF1Interval) × CachedClientState :=
  let cacheKey := CacheService.generateSessionKey params.session_key "intervals"
  match CacheValue.asIntervals (CacheService.get st.redis cacheKey) with
  | some cachedData => (.ok cachedData, st)
  | none =>
    let step := OpenF1ClientService.fetchIntervals st.breaker o now params resp
    match step.result with
    | .ok intervals =>
      let redis := CacheService.set st.redis defaultTtl cacheKey (.intervals intervals)
        (some { ttl := some 300 })
      (.ok intervals, { breaker := step.breaker, redis := redis })
    | .error e => (.error e, { breaker := step.breaker, redis := st.redis })

/-- Embedding of `CachedOpenF1ClientService.fetchStints`: cache-aside with
key `session:<key>:stints` and a 1800 s TTL on the write path. -/
def CachedOpenF1ClientService.fetchStints (st : CachedClientState) (o : CircuitBreakerOptions)
    (defaultTtl : Nat) (now : Int) (params : StintsQueryParams)
    (resp : UpstreamResponse OpenF1Stint) :
    Except JsError (List OpenF1Stint) × CachedClientState :=
  let cacheKey := CacheService.generateSessionKey params.session_key "stints"
  match CacheValue.asStints (CacheService.get st.redis cacheKey) with
  | some cachedData => (.ok cachedData, st)
  | none =>
    let step := OpenF1ClientService.fetchStints st.breaker o now params resp
    match step.result with
    | .ok stints =>
      let redis := CacheService.set st.redis defaultTtl cacheKey (.stints stints)
        (some { ttl := some 1800 })
      (.ok stints, { breaker := step.breaker, redis := redis })
    | .error e => (.error e, { breaker := step.breaker, redis := st.redis })

/-- The four per-category results assembled by `preloadReplayData`. -/
structure ReplayData where
  drivers : List OpenF1Driver
  laps : List OpenF1Lap
  intervals : List OpenF1Interval
  stints : List OpenF1Stint
deriving DecidableEq, Repr

/-- Entry decision of one `execute` call: what the synchronous prelude of
`execute` (the request counting and the `OPEN`-state check, which run before
the operation could suspend) decides to do. -/
inductive EnterDecision (α : Type) where
  | proceed
  | rejected (result : Except JsError α)
deriving Repr

/-- The synchronous prelude of `execute`: count the request; in the `OPEN`
state either transition to `HALF_OPEN` (recovery interval elapsed) and
proceed to invoke the operation, or reject without invoking it; otherwise
proceed.  Splitting `execute` here is what lets several in-flight calls
through one breaker be modeled: each call's prelude (and the invoked
operation's body up to its first network suspension) runs to completion
before any call's upstream exchange settles.  `execute_enter_settle_spec`
below proves that a single uninterrupted call is exactly this prelude
followed by `executeSettle`. -/
def CircuitBreakerService.executeEnter (b : CircuitBreakerService)
    (o : CircuitBreakerOptions) (now : Int) {α : Type} (fallbackData : Option α) :
    EnterDecision α × CircuitBreakerService :=
  let b := { b with totalRequests := b.totalRequests + 1 }
  if b.state = .OPEN then
    if b.shouldAttemptRecovery o now then
      (.proceed, { b with state := .HALF_OPEN })
    else
      match fallbackData with
      | some f => (.rejected (.ok f), b)
      | none =>
        (.rejected
          (.error (.jsError "Circuit Breaker is OPEN - Service temporarily unavailable")), b)
  else (.proceed, b)

/-- The settlement of an invoked operation: the `try`/`catch` continuation
of `execute` that runs when the operation resolves or rejects
(`runOperation`), returning the call's result and the breaker afterwards. -/
def CircuitBreakerService.executeSettle (b : CircuitBreakerService)
    (o : CircuitBreakerOptions) (now : Int) {α : Type} (act : ActionOutcome α)
    (fallbackData : Option α) : Except JsError α × CircuitBreakerService :=
  let r := b.runOperation o now act fallbackData
  (r.result, r.breaker)

/-- Start-phase outcome of one cached category fetch inside the preload:
resolved from the cache (no breaker involvement), rejected at the breaker
entry (`OPEN`, interval not elapsed), or in flight (operation invoked, the
upstream exchange settles later). -/
inductive FetchStart (α : Type) where
  | hit (cachedData : List α)
  | rejected (result : Except JsError (List α))
  | inFlight
deriving Repr

/-- Start phase of one cached category fetch: the cache lookup followed, on
a miss, by the breaker entry with the empty-list fallback.  When the backing
store is unreachable the lookup answers without suspending, so this whole
phase runs in the immediate microtask cascade. -/
def startCachedFetch {α : Type} (decode : Option CacheValue → Option (List α))
    (cacheKey : String) (redis : RedisClient) (b : CircuitBreakerService)
    (o : CircuitBreakerOptions) (now : Int) : FetchStart α × CircuitBreakerService :=
  match decode (CacheService.get redis cacheKey) with
  | some cachedData => (.hit cachedData, b)
  | none =>
    match CircuitBreakerService.executeEnter b o now (some ([] : List α)) with
    | (.proceed, b1) => (.inFlight, b1)
    | (.rejected r, b1) => (.rejected r, b1)

/-- Settlement phase of one cached category fetch: a cache hit or an
entry-phase rejection is already settled; an in-flight fetch settles its
upstream exchange through the breaker and caches a returned value (also the
empty-list fallback) under the category's TTL. -/
def settleCachedFetch {α : Type} (encode : List α → CacheValue) (message : String)
    (ttl : Nat) (cacheKey : String) (start : FetchStart α) (b : CircuitBreakerService)
    (redis : RedisClient) (o : CircuitBreakerOptions) (defaultTtl : Nat) (now : Int)
    (resp : UpstreamResponse α) :
    Except JsError (List α) × CircuitBreakerService × RedisClient :=
  match start with
  | .hit cachedData => (.ok cachedData, b, redis)
  | .rejected r => (r, b, redis)
  | .inFlight =>
    let s := CircuitBreakerService.executeSettle b o now (upstreamOperation resp message)
      (some [])
    match s.1 with
    | .ok data =>
      (.ok data, s.2,
       CacheService.set redis defaultTtl cacheKey (encode data) (some { ttl := some ttl }))
    | .error e => (.error e, s.2, redis)

/-- The four settled promises of `Promise.all` inside `preloadReplayData`,
together with the combined state after all have settled. -/
structure PreloadSteps where
  driversResult : Except JsError (List OpenF1Driver)
  lapsResult : Except JsError (List OpenF1Lap)
  intervalsResult : Except JsError (List OpenF1Interval)
  stintsResult : Except JsError (List OpenF1Stint)
  final : CachedClientState

/-- The four category fetches issued by `preloadReplayData(sessionKey)`, each
with `{ session_key: sessionKey }` as its only parameter.  All four start
before any is awaited: each start phase (cache lookup and, on a miss, the
breaker entry with the operation invoked up to its upstream suspension) runs
in array order in the immediate microtask cascade, strictly before any
upstream exchange settles; the settlements are then applied in array order.
(In reality settlements arrive in upstream-response order; the theorems
below do not depend on that order, since at most one category fails.) -/
def CachedOpenF1ClientService.preloadFetches (st : CachedClientState)
    (o : CircuitBreakerOptions) (defaultTtl : Nat) (now : Int) (sessionKey : Nat)
    (driversResp : UpstreamResponse OpenF1Driver) (lapsResp : UpstreamResponse OpenF1Lap)
    (intervalsResp : UpstreamResponse OpenF1Interval)
    (stintsResp : UpstreamResponse OpenF1Stint) : PreloadSteps :=
  let keyD := CacheService.generateSessionKey sessionKey "drivers"
  let keyL := CachedOpenF1ClientService.generateLapsCacheKey
    { session_key := sessionKey, driver_number := none, lap_number := none }
  let keyI := CacheService.generateSessionKey sessionKey "intervals"
  let keyS := CacheService.generateSessionKey sessionKey "stints"
  let startD := startCachedFetch CacheValue.asDrivers keyD st.redis st.breaker o now
  let startL := startCachedFetch CacheValue.asLaps keyL st.redis startD.2 o now
  let startI := startCachedFetch CacheValue.asIntervals keyI st.redis startL.2 o now
  let startS := startCachedFetch CacheValue.asStints keyS st.redis startI.2 o now
  let setD := settleCachedFetch CacheValue.drivers "Failed to fetch driver data" 1800 keyD
    startD.1 startS.2 st.redis o defaultTtl now driversResp
  let setL := settleCachedFetch CacheValue.laps "Failed to fetch lap data" 900 keyL
    startL.1 setD.2.1 setD.2.2 o defaultTtl now lapsResp
  let setI := settleCachedFetch CacheValue.intervals "Failed to fetch interval data" 300 keyI
    startI.1 setL.2.1 setL.2.2 o defaultTtl now intervalsResp
  let setS := settleCachedFetch CacheValue.stints "Failed to fetch stint data" 1800 keyS
    startS.1 setI.2.1 setI.2.2 o defaultTtl now stintsResp
  { driversResult := setD.1, lapsResult := setL.1, intervalsResult := setI.1,
    stintsResult := setS.1, final := ⟨setS.2.1, setS.2.2⟩ }

/-- Embedding of `CachedOpenF1ClientService.preloadReplayData`:
`Promise.all` resolves with the assembled record when every branch resolves,
and rejects with the error of a rejected branch otherwise (every branch still
runs to completion, so all state effects apply either way). -/
def CachedOpenF1ClientService.preloadReplayData (st : CachedClientState)
    (o : CircuitBreakerOptions) (defaultTtl : Nat) (now : Int) (sessionKey : Nat)
    (driversResp : UpstreamResponse OpenF1Driver) (lapsResp : UpstreamResponse OpenF1Lap)
    (intervalsResp : UpstreamResponse OpenF1Interval)
    (stintsResp : UpstreamResponse OpenF1Stint) :
    Except JsError ReplayData × CachedClientState :=
  let steps := CachedOpenF1ClientService.preloadFetches st o defaultTtl now sessionKey
    driversResp lapsResp intervalsResp stintsResp
  match steps.driversResult, steps.lapsResult, steps.intervalsResult, steps.stintsResult with
  | .ok d, .ok l, .ok i, .ok s =>
    (.ok { drivers := d, laps := l, intervals := i, stints := s }, steps.final)
  | .error e, _, _, _ => (.error e, steps.final)
  | _, .error e, _, _ => (.error e, steps.final)
  | _, _, .error e, _ => (.error e, steps.final)
  | _, _, _, .error e => (.error e, steps.final)

/-!
Embedding of `F1TransformationsUtil` (f1-transformations.util.ts): pure
decoders of DRS codes and track-segment codes.
-/

/-- The DRS decode result `{ enabled, available }`. -/
structure DRSState where
  enabled : Bool
  available : Bool
deriving DecidableEq, Repr

/-- The `SectorPerformance` union type. -/
inductive SectorPerformance where
  | personal_best
  | best
  | neutral
  | pit
deriving DecidableEq, Repr

/-- A decoded segment (`TransformedSegment`): the raw value together with the
fields of the `SEGMENT_MAPPING` entry (or the unknown-segment defaults). -/
structure TransformedSegment where
  value : Nat
  color : String
  meaning : String
  performance : SectorPerformance
deriving DecidableEq, Repr

/-- The pit lane segment value (`PIT_SEGMENT_VALUE`). -/
def F1TransformationsUtil.PIT_SEGMENT_VALUE : Nat := 2064

/-- Embedding of `F1TransformationsUtil.transformDRS`: the `DRS_MAPPING`
lookup with `{ enabled: false, available: false }` for absent values and
unrecognized codes. -/
def F1TransformationsUtil.transformDRS : Option Nat → DRSState
  | none => { enabled := false, available := false }
  | some drsValue =>
    if drsValue = 0 then { enabled := false, available := false }
    else if drsValue = 1 then { enabled := false, available := false }
    else if drsValue = 8 then { enabled := false, available := true }
    else if drsValue = 10 then { enabled := true, available := true }
    else if drsValue = 12 then { enabled := true, available := true }
    else if drsValue = 14 then { enabled := true, available := true }
    else { enabled := false, available := false }

/-- Decoding of one segment value: the spread of the `SEGMENT_MAPPING` entry
over `{ value }`, with the unknown-segment defaults for unrecognized
codes. -/
def F1TransformationsUtil.transformSegment (segment : Nat) : TransformedSegment :=
  if segment = 0 then
    { value := segment, color := "none", meaning := "not available", performance := .neutral }
  else if segment = 2048 then
    { value := segment, color := "yellow", meaning := "yellow sector", performance := .neutral }
  else if segment = 2049 then
    { value := segment, color := "green", meaning := "green sector", performance := .best }
  else if segment = 2051 then
    { value := segment, color := "purple", meaning := "purple sector",
      performance := .personal_best }
  else if segment = 2064 then
    { value := segment, color := "pit", meaning := "pitlane", performance := .pit }
  else
    { value := segment, color := "unknown", meaning := "unknown segment",
      performance := .neutral }

/-- Embedding of `F1TransformationsUtil.transformSegments`: absent input
yields the empty array, otherwise each value is decoded. -/
def F1TransformationsUtil.transformSegments : Option (List Nat) → List TransformedSegment
  | none => []
  | some segments => segments.map F1TransformationsUtil.transformSegment

/-- Embedding of `F1TransformationsUtil.detectPitLane`: drop absent arrays,
flatten the rest, and look for the pit segment value. -/
def F1TransformationsUtil.detectPitLane (segmentArrays : List (Option (List Nat))) : Bool :=
  let allSegments := (segmentArrays.filterMap id).flatten
  allSegments.contains F1TransformationsUtil.PIT_SEGMENT_VALUE

/-- Embedding of `F1TransformationsUtil.analyzeSectorPerformance`: absent
input is neutral; otherwise the first of personal-best, best, pit found among
the decoded segments, else neutral. -/
def F1TransformationsUtil.analyzeSectorPerformance (segments : Option (List Nat)) :
    SectorPerformance :=
  match segments with
  | none => .neutral
  | some l =>
    let transformedSegments := F1TransformationsUtil.transformSegments (some l)
    if transformedSegments.any (fun s => s.performance = .personal_best) then .personal_best
    else if transformedSegments.any (fun s => s.performance = .best) then .best
    else if transformedSegments.any (fun s => s.performance = .pit) then .pit
    else .neutral

/-- Numeric priority of a performance label, as stated by the specification:
personal-best over best over pit over neutral. -/
def priorityOf : SectorPerformance → Nat
  | .personal_best => 3
  | .best => 2
  | .pit => 1
  | .neutral => 0

/-- The higher-priority of two performance labels. -/
def higherPriority (a b : SectorPerformance) : SectorPerformance :=
  if priorityOf a < priorityOf b then b else a

/-- Specification-side reduction of a list of performance labels to the
single highest-priority label present, neutral when none is. -/
def highestPriorityLabel (ps : List SectorPerformance) : SectorPerformance :=
  ps.foldl higherPriority .neutral
/-!
Auxiliary definitions used by the verification layer: iterated failing calls
through the breaker, concrete example states, and the specification-side
reduction of segment labels.
-/

/-- Breaker state after `n` consecutive calls to `execute` whose operation
fails, starting from the freshly constructed service; call `n` happens at
time `ts n` and passes `fb` as fallback. -/
def consecutiveFailures (o : CircuitBreakerOptions) (ts : Nat → Int) (e : JsError)
    {α : Type} (fb : Option α) : Nat → CircuitBreakerService
  | 0 => CircuitBreakerService.init
  | n + 1 => ((consecutiveFailures o ts e fb n).execute o (ts n) (.fails e) fb).breaker

/-- The breaker after five consecutive failed calls (at time 0, no
fallback) under the source's default options: an `OPEN` breaker with failure
count 5. -/
def exampleOpenBreaker : CircuitBreakerService :=
  consecutiveFailures defaultCircuitBreakerOptions (fun _ => 0) (.jsError "boom")
    (none : Option (List OpenF1Lap)) 5

/-- A Redis client that never became ready (backing store unreachable). -/
def exampleDownRedis : RedisClient := { isReady := false, store := [], failing := false }

/-- A Redis client that is ready but whose commands all error
(connectivity lost mid-call). -/
def exampleFailingRedis : RedisClient :=
  { isReady := true, store := [("session:9158:laps", .laps [], 900)], failing := true }

/-- A concrete driver record used in witnesses. -/
def exampleDriver : OpenF1Driver :=
  { meeting_key := 1219, session_key := 9158, driver_number := 1,
    full_name := "Max VERSTAPPEN", name_acronym := "VER",
    team_name := "Red Bull Racing", team_colour := "3671C6" }

/-- A concrete interval record used in witnesses. -/
def exampleInterval : OpenF1Interval :=
  { meeting_key := 1219, session_key := 9222, driver_number := 1,
    date := "2023-09-17T05:12:00+00:00", gap_to_leader := none, interval := 0 }

/-- Selection form of the highest-priority reduction: the first of
personal-best, best, pit present in the list, else neutral.  Proved equal to
`highestPriorityLabel` below. -/
def selChain (ps : List SectorPerformance) : SectorPerformance :=
  if ps.any (fun p => p = SectorPerformance.personal_best) then .personal_best
  else if ps.any (fun p => p = SectorPerformance.best) then .best
  else if ps.any (fun p => p = SectorPerformance.pit) then .pit
  else .neutral

/-!
Helper lemmas about the circuit breaker, the cache, and list folds.
-/

/-- Unfolding lemma: recovery eligibility reads only the last-failure time
and the options. -/
lemma shouldAttemptRecovery_mk (st : CircuitBreakerState) (fc : Nat) (lt : Option Int)
    (tr sr fr : Nat) (o : CircuitBreakerOptions) (now : Int) :
    (CircuitBreakerService.mk st fc lt tr sr fr).shouldAttemptRecovery o now =
      (match lt with
       | none => false
       | some t => decide ((o.recoveryTimeout : Int) ≤ now - t)) := rfl

/-- An `execute` call in the `OPEN` state before the recovery interval:
nothing is invoked, only the total-request counter moves, and the fallback
(or the breaker-open error) is returned. -/
lemma execute_open_reject (b : CircuitBreakerService) (o : CircuitBreakerOptions)
    (now : Int) {α : Type} (act : ActionOutcome α) (fb : Option α)
    (h1 : b.state = .OPEN) (h2 : b.shouldAttemptRecovery o now = false) :
    b.execute o now act fb =
      { result := (match fb with
          | some f => .ok f
          | none => .error (.jsError "Circuit Breaker is OPEN - Service temporarily unavailable")),
        breaker := { b with totalRequests := b.totalRequests + 1 },
        invoked := false } := by
  rcases b with ⟨st, fc, lt, tr, sr, fr⟩
  obtain rfl : st = .OPEN := h1
  rw [shouldAttemptRecovery_mk] at h2
  unfold CircuitBreakerService.execute
  cases fb <;> simp [shouldAttemptRecovery_mk, h2]

/-- Every `execute` call increments the total-request counter by one. -/
lemma execute_totalRequests (b : CircuitBreakerService) (o : CircuitBreakerOptions)
    (now : Int) {α : Type} (act : ActionOutcome α) (fb : Option α) :
    ((b.execute o now act fb).breaker).totalRequests = b.totalRequests + 1 := by
  rcases b with ⟨st, fc, lt, tr, sr, fr⟩
  unfold CircuitBreakerService.execute CircuitBreakerService.runOperation
    CircuitBreakerService.onSuccess CircuitBreakerService.onFailure
  cases act <;> cases fb <;> dsimp only
  repeat' split
  all_goals rfl

/-- One `execute` call grows the success and failure counters together by
at most one. -/
lemma execute_counter_growth (b : CircuitBreakerService) (o : CircuitBreakerOptions)
    (now : Int) {α : Type} (act : ActionOutcome α) (fb : Option α) :
    ((b.execute o now act fb).breaker).successfulRequests
      + ((b.execute o now act fb).breaker).failedRequests
      ≤ b.successfulRequests + b.failedRequests + 1 := by
  rcases b with ⟨st, fc, lt, tr, sr, fr⟩
  unfold CircuitBreakerService.execute CircuitBreakerService.runOperation
    CircuitBreakerService.onSuccess CircuitBreakerService.onFailure
  cases act <;> cases fb <;> dsimp only
  repeat' split
  all_goals dsimp only
  all_goals omega

/-- In every reachable breaker state the settled requests are bounded by
the total requests. -/
lemma reachable_sum_le (o : CircuitBreakerOptions) (b : CircuitBreakerService)
    (h : CircuitBreakerService.Reachable o b) :
    b.successfulRequests + b.failedRequests ≤ b.totalRequests := by
  induction h with
  | init => simp [CircuitBreakerService.init]
  | step b now act fb hb ih =>
    have h1 := execute_totalRequests b o now act fb
    have h2 := execute_counter_growth b o now act fb
    omega

/-- Reachability invariant: whenever the breaker is `OPEN` (or probing in
`HALF_OPEN`), the failure counter has reached the threshold and a failure
time is recorded. -/
lemma reachable_open_inv (o : CircuitBreakerOptions) (b : CircuitBreakerService)
    (h : CircuitBreakerService.Reachable o b) :
    (b.state = .OPEN ∨ b.state = .HALF_OPEN) →
      o.failureThreshold ≤ b.failureCount ∧ b.lastFailureTime ≠ none := by
  induction h with
  | init => intro hst; rcases hst with h | h <;> simp [CircuitBreakerService.init] at h
  | step b now act fb hb ih =>
    rcases b with ⟨st, fc, lt, tr, sr, fr⟩
    unfold CircuitBreakerService.execute CircuitBreakerService.runOperation
      CircuitBreakerService.onSuccess CircuitBreakerService.onFailure
    dsimp only
    rw [shouldAttemptRecovery_mk]
    by_cases hopen : st = CircuitBreakerState.OPEN
    · subst hopen
      rcases lt with _ | t
      · exact absurd rfl (ih (Or.inl rfl)).2
      · have hthr : o.failureThreshold ≤ fc := (ih (Or.inl rfl)).1
        by_cases hrec : (o.recoveryTimeout : Int) ≤ now - t
        · cases act <;> cases fb <;>
            simp [hrec, Nat.le_succ_of_le hthr]
        · cases fb <;> simp [hrec, hthr]
    · simp only [if_neg hopen]
      cases act with
      | succeeds v =>
        by_cases hhalf : st = CircuitBreakerState.HALF_OPEN <;>
          simp [hhalf, hopen]
      | fails e =>
        by_cases hthr : o.failureThreshold ≤ fc + 1
        · cases fb <;> simp [hthr]
        · have hni : ¬ (st = CircuitBreakerState.HALF_OPEN) := by
            intro hhalf
            exact hthr (Nat.le_succ_of_le (ih (Or.inr hhalf)).1)
          cases fb <;> simp [hthr] <;> exact ⟨hopen, hni⟩

/-- Breaker state after a failing call that was not rejected outright:
counters move, the failure time is recorded, and the state opens exactly
when the incremented counter reaches the threshold. -/
lemma execute_fail_breaker (b : CircuitBreakerService) (o : CircuitBreakerOptions)
    (now : Int) (e : JsError) {α : Type} (fb : Option α) (h : b.state ≠ .OPEN) :
    ((b.execute o now (.fails e) fb).breaker) =
      { state := if o.failureThreshold ≤ b.failureCount + 1 then .OPEN else b.state,
        failureCount := b.failureCount + 1, lastFailureTime := some now,
        totalRequests := b.totalRequests + 1, successfulRequests := b.successfulRequests,
        failedRequests := b.failedRequests + 1 } := by
  rcases b with ⟨st, fc, lt, tr, sr, fr⟩
  unfold CircuitBreakerService.execute CircuitBreakerService.runOperation
    CircuitBreakerService.onFailure
  dsimp only
  simp only [if_neg (by simpa using h)]
  cases fb <;> dsimp only <;> split <;> simp_all

/-- Below the threshold, consecutive failing calls keep the breaker
`CLOSED` and count exactly the failures. -/
lemma consecutiveFailures_closed (o : CircuitBreakerOptions) (ts : Nat → Int) (e : JsError)
    {α : Type} (fb : Option α) (n : Nat) (hn : n < o.failureThreshold) :
    (consecutiveFailures o ts e fb n).state = .CLOSED ∧
      (consecutiveFailures o ts e fb n).failureCount = n := by
  induction n with
  | zero => exact ⟨rfl, rfl⟩
  | succ m ih =>
    obtain ⟨hs, hc⟩ := ih (Nat.lt_of_succ_lt hn)
    have hne : (consecutiveFailures o ts e fb m).state ≠ .OPEN := by
      rw [hs]; intro hx; exact CircuitBreakerState.noConfusion hx
    unfold consecutiveFailures
    rw [execute_fail_breaker _ _ _ _ _ hne]
    constructor
    · dsimp only
      rw [hc, if_neg (by omega), hs]
    · dsimp only
      rw [hc]

/-- The state after any number of consecutive failing calls is reachable. -/
lemma reachable_consecutiveFailures (o : CircuitBreakerOptions) (ts : Nat → Int) (e : JsError)
    {α : Type} (fb : Option α) (n : Nat) :
    CircuitBreakerService.Reachable o (consecutiveFailures o ts e fb n) := by
  induction n with
  | zero => exact .init
  | succ m ih => exact .step _ _ _ _ ih

/-- Recording a failure increments the consecutive-failure counter. -/
lemma onFailure_failureCount (b : CircuitBreakerService) (o : CircuitBreakerOptions)
    (now : Int) : (b.onFailure o now).failureCount = b.failureCount + 1 := by
  rcases b with ⟨st, fc, lt, tr, sr, fr⟩
  unfold CircuitBreakerService.onFailure
  dsimp only
  split <;> rfl

/-- A failing operation with no fallback: the error is rethrown. -/
lemma runOperation_fails_none (b : CircuitBreakerService) (o : CircuitBreakerOptions)
    (now : Int) (e : JsError) {α : Type} :
    b.runOperation o now (.fails e) (none : Option α) =
      { result := .error e, breaker := b.onFailure o now, invoked := true } := rfl

/-- A failing operation with a fallback: the fallback is returned exactly
when the incremented failure counter has reached the threshold. -/
lemma runOperation_fails_some (b : CircuitBreakerService) (o : CircuitBreakerOptions)
    (now : Int) (e : JsError) {α : Type} (f : α) :
    b.runOperation o now (.fails e) (some f) =
      (if o.failureThreshold ≤ b.failureCount + 1 then
        { result := .ok f, breaker := b.onFailure o now, invoked := true }
      else
        { result := .error e, breaker := b.onFailure o now, invoked := true }) := by
  simp only [CircuitBreakerService.runOperation, onFailure_failureCount b o now]

/-- Outside the `OPEN` state, `execute` counts the request and runs the
operation. -/
lemma execute_not_open (b : CircuitBreakerService) (o : CircuitBreakerOptions)
    (now : Int) {α : Type} (act : ActionOutcome α) (fb : Option α)
    (h : b.state ≠ .OPEN) :
    b.execute o now act fb =
      CircuitBreakerService.runOperation { b with totalRequests := b.totalRequests + 1 }
        o now act fb := by
  rcases b with ⟨st, fc, lt, tr, sr, fr⟩
  unfold CircuitBreakerService.execute
  dsimp only
  rw [if_neg (by simpa using h)]

/-- In the `OPEN` state with the recovery interval elapsed, `execute`
transitions to `HALF_OPEN` and runs the operation as a probe. -/
lemma execute_open_recover (b : CircuitBreakerService) (o : CircuitBreakerOptions)
    (now : Int) {α : Type} (act : ActionOutcome α) (fb : Option α)
    (h1 : b.state = .OPEN) (h2 : b.shouldAttemptRecovery o now = true) :
    b.execute o now act fb =
      CircuitBreakerService.runOperation
        { b with state := .HALF_OPEN, totalRequests := b.totalRequests + 1 }
        o now act fb := by
  rcases b with ⟨st, fc, lt, tr, sr, fr⟩
  obtain rfl : st = .OPEN := h1
  rw [shouldAttemptRecovery_mk] at h2
  unfold CircuitBreakerService.execute
  dsimp only
  rw [shouldAttemptRecovery_mk, h2]
  simp

/-- A successful operation settles through `onSuccess`. -/
lemma runOperation_succeeds (b : CircuitBreakerService) (o : CircuitBreakerOptions)
    (now : Int) {α : Type} (v : α) (fb : Option α) :
    b.runOperation o now (.succeeds v) fb =
      { result := .ok v, breaker := b.onSuccess, invoked := true } := rfl

/-- The settlement continuation always stems from an invoked operation. -/
lemma runOperation_invoked (b : CircuitBreakerService) (o : CircuitBreakerOptions)
    (now : Int) {α : Type} (act : ActionOutcome α) (fb : Option α) :
    (b.runOperation o now act fb).invoked = true := by
  unfold CircuitBreakerService.runOperation
  cases act <;> cases fb <;> dsimp only
  repeat' split
  all_goals rfl

/-- A 2xx upstream response resolves the operation with its data. -/
lemma upstreamOperation_ok {α : Type} (data : List α) (message : String) :
    upstreamOperation (.ok data) message = .succeeds data := rfl

/-- A failed upstream exchange rejects the operation with the method's
`HttpException`. -/
lemma upstreamOperation_failure {α : Type} (message : String) :
    upstreamOperation (.failure : UpstreamResponse α) message =
      .fails (.httpException message 503) := rfl

/-- Fidelity of the two-phase split: a single uninterrupted `execute` call
is exactly `executeEnter` followed (when the operation proceeds) by
`executeSettle`; an entry-phase rejection is already the call's result. -/
lemma execute_enter_settle_spec (b : CircuitBreakerService) (o : CircuitBreakerOptions)
    (now : Int) {α : Type} (act : ActionOutcome α) (fb : Option α) :
    (∀ b1, CircuitBreakerService.executeEnter b o now fb = (.proceed, b1) →
       b.execute o now act fb =
         { result := (CircuitBreakerService.executeSettle b1 o now act fb).1,
           breaker := (CircuitBreakerService.executeSettle b1 o now act fb).2,
           invoked := true }) ∧
    (∀ r b1, CircuitBreakerService.executeEnter b o now fb = (.rejected r, b1) →
       b.execute o now act fb = { result := r, breaker := b1, invoked := false }) := by
  have hset : ∀ b1 : CircuitBreakerService,
      ({ result := (CircuitBreakerService.executeSettle b1 o now act fb).1,
         breaker := (CircuitBreakerService.executeSettle b1 o now act fb).2,
         invoked := true } : ExecResult α) = b1.runOperation o now act fb := by
    intro b1
    unfold CircuitBreakerService.executeSettle
    dsimp only
    rw [← runOperation_invoked b1 o now act fb]
  rcases b with ⟨st, fc, lt, tr, sr, fr⟩
  constructor
  · intro b1 h
    unfold CircuitBreakerService.executeEnter at h
    dsimp only at h
    by_cases hopen : st = CircuitBreakerState.OPEN
    · subst hopen
      rw [if_pos rfl] at h
      cases hrec : (CircuitBreakerService.mk CircuitBreakerState.OPEN fc lt (tr + 1) sr
          fr).shouldAttemptRecovery o now with
      | true =>
        rw [hrec, if_pos rfl] at h
        simp only [Prod.mk.injEq, true_and] at h
        rw [hset, ← h]
        exact execute_open_recover _ o now act fb rfl
          (by rw [shouldAttemptRecovery_mk] at hrec ⊢; exact hrec)
      | false =>
        rw [hrec] at h
        simp only [Bool.false_eq_true, if_false] at h
        cases fb <;> simp at h
    · rw [if_neg (by simpa using hopen)] at h
      simp only [Prod.mk.injEq, true_and] at h
      rw [hset, ← h]
      exact execute_not_open _ o now act fb (by simpa using hopen)
  · intro r b1 h
    unfold CircuitBreakerService.executeEnter at h
    dsimp only at h
    by_cases hopen : st = CircuitBreakerState.OPEN
    · subst hopen
      rw [if_pos rfl] at h
      cases hrec : (CircuitBreakerService.mk CircuitBreakerState.OPEN fc lt (tr + 1) sr
          fr).shouldAttemptRecovery o now with
      | true =>
        rw [hrec, if_pos rfl] at h
        simp at h
      | false =>
        rw [hrec] at h
        simp only [Bool.false_eq_true, if_false] at h
        have hrec0 : (CircuitBreakerService.mk CircuitBreakerState.OPEN fc lt tr sr
            fr).shouldAttemptRecovery o now = false := by
          rw [shouldAttemptRecovery_mk] at hrec ⊢; exact hrec
        rw [execute_open_reject _ o now act fb rfl hrec0]
        cases fb <;> simp_all
    · rw [if_neg (by simpa using hopen)] at h
      simp at h

/-- A failing call whose operation was actually invoked, with a fallback
supplied: the fallback is returned iff the incremented failure counter has
reached the threshold, otherwise the error propagates. -/
lemma execute_fails_with_fallback (b : CircuitBreakerService) (o : CircuitBreakerOptions)
    (now : Int) (e : JsError) {α : Type} (f : α)
    (hinv : (b.execute o now (.fails e) (some f)).invoked = true) :
    (o.failureThreshold ≤ b.failureCount + 1 →
       (b.execute o now (.fails e) (some f)).result = .ok f) ∧
    (b.failureCount + 1 < o.failureThreshold →
       (b.execute o now (.fails e) (some f)).result = .error e) := by
  have hrun : ∃ b2 : CircuitBreakerService, b2.failureCount = b.failureCount ∧
      b.execute o now (.fails e) (some f) = b2.runOperation o now (.fails e) (some f) := by
    by_cases hopen : b.state = .OPEN
    · by_cases hrec : b.shouldAttemptRecovery o now = true
      · exact ⟨{ b with state := .HALF_OPEN, totalRequests := b.totalRequests + 1 }, rfl,
          execute_open_recover b o now _ _ hopen hrec⟩
      · rw [execute_open_reject b o now _ _ hopen (by simpa using hrec)] at hinv
        exact absurd hinv (by simp)
    · exact ⟨{ b with totalRequests := b.totalRequests + 1 }, rfl,
          execute_not_open b o now _ _ hopen⟩
  obtain ⟨b2, hfc, heq⟩ := hrun
  rw [heq, runOperation_fails_some, hfc]
  constructor
  · intro hc
    rw [if_pos hc]
  · intro hlt
    rw [if_neg (by omega)]

/-- Cache reads are skipped when the client is not ready. -/
lemma cacheGet_not_ready (c : RedisClient) (key : String) (h : c.isReady = false) :
    CacheService.get c key = none := by
  unfold CacheService.get
  rw [h]
  simp

/-- Cache writes are skipped when the client is not ready. -/
lemma cacheSet_not_ready (c : RedisClient) (defaultTtl : Nat) (key : String) (v : CacheValue)
    (options : Option CacheOptions) (h : c.isReady = false) :
    CacheService.set c defaultTtl key v options = c := by
  unfold CacheService.set
  rw [h]
  simp

/-- With the backing store unreachable, the cached drivers fetch degrades
to the plain upstream fetch and leaves the store untouched. -/
lemma cachedFetchDrivers_unreachable (st : CachedClientState) (o : CircuitBreakerOptions)
    (defaultTtl : Nat) (now : Int) (params : DriversQueryParams)
    (resp : UpstreamResponse OpenF1Driver) (h : st.redis.isReady = false) :
    CachedOpenF1ClientService.fetchDrivers st o defaultTtl now params resp =
      ((OpenF1ClientService.fetchDrivers st.breaker o now params resp).result,
       { breaker := (OpenF1ClientService.fetchDrivers st.breaker o now params resp).breaker,
         redis := st.redis }) := by
  unfold CachedOpenF1ClientService.fetchDrivers
  dsimp only
  rw [cacheGet_not_ready _ _ h]
  rcases hres : (OpenF1ClientService.fetchDrivers st.breaker o now params resp).result with e | d <;>
    simp [CacheValue.asDrivers, hres, cacheSet_not_ready _ _ _ _ _ h]

/-- With the backing store unreachable, the cached laps fetch degrades to
the plain upstream fetch and leaves the store untouched. -/
lemma cachedFetchLaps_unreachable (st : CachedClientState) (o : CircuitBreakerOptions)
    (defaultTtl : Nat) (now : Int) (params : LapsQueryParams)
    (resp : UpstreamResponse OpenF1Lap) (h : st.redis.isReady = false) :
    CachedOpenF1ClientService.fetchLaps st o defaultTtl now params resp =
      ((OpenF1ClientService.fetchLaps st.breaker o now params resp).result,
       { breaker := (OpenF1ClientService.fetchLaps st.breaker o now params resp).breaker,
         redis := st.redis }) := by
  unfold CachedOpenF1ClientService.fetchLaps
  dsimp only
  rw [cacheGet_not_ready _ _ h]
  rcases hres : (OpenF1ClientService.fetchLaps st.breaker o now params resp).result with e | d <;>
    simp [CacheValue.asLaps, hres, cacheSet_not_ready _ _ _ _ _ h]

/-- With the backing store unreachable, the cached intervals fetch degrades
to the plain upstream fetch and leaves the store untouched. -/
lemma cachedFetchIntervals_unreachable (st : CachedClientState) (o : CircuitBreakerOptions)
    (defaultTtl : Nat) (now : Int) (params : IntervalsQueryParams)
    (resp : UpstreamResponse OpenF1Interval) (h : st.redis.isReady = false) :
    CachedOpenF1ClientService.fetchIntervals st o defaultTtl now params resp =
      ((OpenF1ClientService.fetchIntervals st.breaker o now params resp).result,
       { breaker := (OpenF1ClientService.fetchIntervals st.breaker o now params resp).breaker,
         redis := st.redis }) := by
  unfold CachedOpenF1ClientService.fetchIntervals
  dsimp only
  rw [cacheGet_not_ready _ _ h]
  rcases hres : (OpenF1ClientService.fetchIntervals st.breaker o now params resp).result with e | d <;>
    simp [CacheValue.asIntervals, hres, cacheSet_not_ready _ _ _ _ _ h]

/-- With the backing store unreachable, the cached stints fetch degrades to
the plain upstream fetch and leaves the store untouched. -/
lemma cachedFetchStints_unreachable (st : CachedClientState) (o : CircuitBreakerOptions)
    (defaultTtl : Nat) (now : Int) (params : StintsQueryParams)
    (resp : UpstreamResponse OpenF1Stint) (h : st.redis.isReady = false) :
    CachedOpenF1ClientService.fetchStints st o defaultTtl now params resp =
      ((OpenF1ClientService.fetchStints st.breaker o now params resp).result,
       { breaker := (OpenF1ClientService.fetchStints st.breaker o now params resp).breaker,
         redis := st.redis }) := by
  unfold CachedOpenF1ClientService.fetchStints
  dsimp only
  rw [cacheGet_not_ready _ _ h]
  rcases hres : (OpenF1ClientService.fetchStints st.breaker o now params resp).result with e | d <;>
    simp [CacheValue.asStints, hres, cacheSet_not_ready _ _ _ _ _ h]

/-- Start phase of a cached category fetch on a cache miss (backing store
unreachable) while the breaker is not open: the operation goes in flight and
only the total-request counter moves. -/
lemma startCachedFetch_miss_closed {α : Type} (decode : Option CacheValue → Option (List α))
    (hdecode : decode none = none) (cacheKey : String) (redis : RedisClient)
    (b : CircuitBreakerService) (o : CircuitBreakerOptions) (now : Int)
    (hready : redis.isReady = false) (hclosed : b.state ≠ .OPEN) :
    startCachedFetch decode cacheKey redis b o now =
      (.inFlight, { b with totalRequests := b.totalRequests + 1 }) := by
  unfold startCachedFetch CircuitBreakerService.executeEnter
  rw [cacheGet_not_ready _ _ hready, hdecode]
  rcases b with ⟨st, fc, lt, tr, sr, fr⟩
  dsimp only
  rw [if_neg (by simpa using hclosed)]

/-- Settling an in-flight fetch whose upstream exchange succeeded, with the
store unreachable: the data is returned, the breaker records the success,
the store stays untouched. -/
lemma settleCachedFetch_ok_unreachable {α : Type} (encode : List α → CacheValue)
    (message : String) (ttl : Nat) (cacheKey : String) (b : CircuitBreakerService)
    (redis : RedisClient) (o : CircuitBreakerOptions) (defaultTtl : Nat) (now : Int)
    (data : List α) (hready : redis.isReady = false) :
    settleCachedFetch encode message ttl cacheKey .inFlight b redis o defaultTtl now
        (.ok data) =
      (.ok data, b.onSuccess, redis) := by
  simp only [settleCachedFetch, CircuitBreakerService.executeSettle, upstreamOperation_ok,
    runOperation_succeeds]
  rw [cacheSet_not_ready _ _ _ _ _ hready]

/-- Settling an in-flight fetch whose upstream exchange failed while the
failure counter stays below the threshold: the `HttpException` propagates
and the breaker records the failure. -/
lemma settleCachedFetch_fail_below {α : Type} (encode : List α → CacheValue)
    (message : String) (ttl : Nat) (cacheKey : String) (b : CircuitBreakerService)
    (redis : RedisClient) (o : CircuitBreakerOptions) (defaultTtl : Nat) (now : Int)
    (hlt : b.failureCount + 1 < o.failureThreshold) :
    settleCachedFetch encode message ttl cacheKey (.inFlight : FetchStart α) b redis o
        defaultTtl now .failure =
      (.error (.httpException message 503), b.onFailure o now, redis) := by
  simp only [settleCachedFetch, CircuitBreakerService.executeSettle, upstreamOperation_failure,
    runOperation_fails_some]
  rw [if_neg (by omega)]

/-- Settling an in-flight fetch whose upstream exchange failed once the
failure counter reaches the threshold: the empty-list fallback is returned
(and written to the unreachable store as a no-op). -/
lemma settleCachedFetch_fail_reached {α : Type} (encode : List α → CacheValue)
    (message : String) (ttl : Nat) (cacheKey : String) (b : CircuitBreakerService)
    (redis : RedisClient) (o : CircuitBreakerOptions) (defaultTtl : Nat) (now : Int)
    (hge : o.failureThreshold ≤ b.failureCount + 1) (hready : redis.isReady = false) :
    settleCachedFetch encode message ttl cacheKey (.inFlight : FetchStart α) b redis o
        defaultTtl now .failure =
      (.ok [], b.onFailure o now, redis) := by
  simp only [settleCachedFetch, CircuitBreakerService.executeSettle, upstreamOperation_failure,
    runOperation_fails_some]
  rw [if_pos hge]
  dsimp only
  rw [cacheSet_not_ready _ _ _ _ _ hready]

/-- Mapping then testing equals testing the composite predicate. -/
lemma any_map_comp {α β : Type} (f : α → β) (l : List α) (p : β → Bool) :
    (l.map f).any p = l.any (fun a => p (f a)) := by
  induction l with
  | nil => rfl
  | cons x t ih => simp [List.any_cons, ih]

lemma higherPriority_neutral_left (a : SectorPerformance) :
    higherPriority .neutral a = a := by
  cases a <;> decide

lemma higherPriority_neutral_right (a : SectorPerformance) :
    higherPriority a .neutral = a := by
  cases a <;> decide

lemma higherPriority_assoc (a b c : SectorPerformance) :
    higherPriority (higherPriority a b) c = higherPriority a (higherPriority b c) := by
  cases a <;> cases b <;> cases c <;> decide

/-- The selection form distributes over cons as a priority maximum. -/
lemma selChain_cons (p : SectorPerformance) (t : List SectorPerformance) :
    selChain (p :: t) = higherPriority p (selChain t) := by
  cases hp1 : t.any (fun q => q = SectorPerformance.personal_best) <;>
  cases hp2 : t.any (fun q => q = SectorPerformance.best) <;>
  cases hp3 : t.any (fun q => q = SectorPerformance.pit) <;>
  cases p <;>
    simp [selChain, List.any_cons, hp1, hp2, hp3, higherPriority, priorityOf]

lemma foldl_higherPriority (t : List SectorPerformance) :
    ∀ a, t.foldl higherPriority a = higherPriority a (selChain t) := by
  induction t with
  | nil => intro a; simp [selChain, higherPriority_neutral_right]
  | cons p t ih =>
    intro a
    rw [List.foldl_cons, ih (higherPriority a p), selChain_cons, higherPriority_assoc]

/-- The fold computing the highest-priority label agrees with the selection
form. -/
lemma highestPriorityLabel_eq_selChain (ps : List SectorPerformance) :
    highestPriorityLabel ps = selChain ps := by
  unfold highestPriorityLabel
  rw [foldl_higherPriority, higherPriority_neutral_left]

/-!
Claim theorems.
-/

/-- C1 (counterexample): with the cache store down, the default options, and
a laps upstream that fails while drivers, intervals and stints succeed,
`preloadReplayData` does not return a result map with an empty laps array -
it fails as a whole with the laps `HttpException`, because `Promise.all`
rejects and no per-category catch exists. -/
theorem preload_fails_whole_counterexample :
    (CachedOpenF1ClientService.preloadReplayData
        ⟨CircuitBreakerService.init, exampleDownRedis⟩ defaultCircuitBreakerOptions 300 0 9158
        (.ok [exampleDriver]) .failure (.ok []) (.ok [])).1 =
      .error (.httpException "Failed to fetch lap data" 503) := rfl

/-- C1 (amended): all four category fetches enter the breaker before any of
them settles (the cache, being unreachable, answers in the immediate
microtask cascade).  When exactly one category's fetch chain then fails with
a propagated failure (laps, its failure counter below the threshold) while
the others succeed, preload fails as a whole with that category's error -
`Promise.all` rejects and no per-category catch exists.  When the failure is
instead absorbed by the empty-list fallback (counter at or above the
threshold), preload returns the result map with an empty array for the
failed category and the other categories' real data. -/
theorem preload_propagates_below_threshold (o : CircuitBreakerOptions) (defaultTtl : Nat)
    (now : Int) (sessionKey : Nat) (redis : RedisClient) (hready : redis.isReady = false)
    (dData : List OpenF1Driver) (iData : List OpenF1Interval) (sData : List OpenF1Stint) :
    (2 ≤ o.failureThreshold →
      (CachedOpenF1ClientService.preloadReplayData ⟨CircuitBreakerService.init, redis⟩ o
          defaultTtl now sessionKey (.ok dData) .failure (.ok iData) (.ok sData)).1 =
        .error (.httpException "Failed to fetch lap data" 503)) ∧
    (o.failureThreshold ≤ 1 →
      (CachedOpenF1ClientService.preloadReplayData ⟨CircuitBreakerService.init, redis⟩ o
          defaultTtl now sessionKey (.ok dData) .failure (.ok iData) (.ok sData)).1 =
        .ok { drivers := dData, laps := [], intervals := iData, stints := sData }) := by
  have s1 : startCachedFetch CacheValue.asDrivers
      (CacheService.generateSessionKey sessionKey "drivers") redis
      CircuitBreakerService.init o now = (.inFlight, ⟨.CLOSED, 0, none, 1, 0, 0⟩) := by
    rw [startCachedFetch_miss_closed _ rfl _ _ _ _ _ hready (by decide)]
    rfl
  have s2 : startCachedFetch CacheValue.asLaps
      (CachedOpenF1ClientService.generateLapsCacheKey
        { session_key := sessionKey, driver_number := none, lap_number := none }) redis
      (⟨.CLOSED, 0, none, 1, 0, 0⟩ : CircuitBreakerService) o now =
      (.inFlight, ⟨.CLOSED, 0, none, 2, 0, 0⟩) := by
    rw [startCachedFetch_miss_closed _ rfl _ _ _ _ _ hready (by decide)]
  have s3 : startCachedFetch CacheValue.asIntervals
      (CacheService.generateSessionKey sessionKey "intervals") redis
      (⟨.CLOSED, 0, none, 2, 0, 0⟩ : CircuitBreakerService) o now =
      (.inFlight, ⟨.CLOSED, 0, none, 3, 0, 0⟩) := by
    rw [startCachedFetch_miss_closed _ rfl _ _ _ _ _ hready (by decide)]
  have s4 : startCachedFetch CacheValue.asStints
      (CacheService.generateSessionKey sessionKey "stints") redis
      (⟨.CLOSED, 0, none, 3, 0, 0⟩ : CircuitBreakerService) o now =
      (.inFlight, ⟨.CLOSED, 0, none, 4, 0, 0⟩) := by
    rw [startCachedFetch_miss_closed _ rfl _ _ _ _ _ hready (by decide)]
  have tD : settleCachedFetch CacheValue.drivers "Failed to fetch driver data" 1800
      (CacheService.generateSessionKey sessionKey "drivers") .inFlight
      (⟨.CLOSED, 0, none, 4, 0, 0⟩ : CircuitBreakerService) redis o defaultTtl now
      (.ok dData) = (.ok dData, ⟨.CLOSED, 0, none, 4, 1, 0⟩, redis) := by
    rw [settleCachedFetch_ok_unreachable _ _ _ _ _ _ _ _ _ _ hready]
    rfl
  constructor
  · intro hT
    have tL : settleCachedFetch CacheValue.laps "Failed to fetch lap data" 900
        (CachedOpenF1ClientService.generateLapsCacheKey
          { session_key := sessionKey, driver_number := none, lap_number := none }) .inFlight
        (⟨.CLOSED, 0, none, 4, 1, 0⟩ : CircuitBreakerService) redis o defaultTtl now
        .failure =
        (.error (.httpException "Failed to fetch lap data" 503),
         ⟨.CLOSED, 1, some now, 4, 1, 1⟩, redis) := by
      rw [settleCachedFetch_fail_below _ _ _ _ _ _ _ _ _ (by dsimp only; omega)]
      unfold CircuitBreakerService.onFailure
      dsimp only
      rw [if_neg (by omega)]
    have tI : settleCachedFetch CacheValue.intervals "Failed to fetch interval data" 300
        (CacheService.generateSessionKey sessionKey "intervals") .inFlight
        (⟨.CLOSED, 1, some now, 4, 1, 1⟩ : CircuitBreakerService) redis o defaultTtl now
        (.ok iData) = (.ok iData, ⟨.CLOSED, 0, some now, 4, 2, 1⟩, redis) := by
      rw [settleCachedFetch_ok_unreachable _ _ _ _ _ _ _ _ _ _ hready]
      rfl
    have tS : settleCachedFetch CacheValue.stints "Failed to fetch stint data" 1800
        (CacheService.generateSessionKey sessionKey "stints") .inFlight
        (⟨.CLOSED, 0, some now, 4, 2, 1⟩ : CircuitBreakerService) redis o defaultTtl now
        (.ok sData) = (.ok sData, ⟨.CLOSED, 0, some now, 4, 3, 1⟩, redis) := by
      rw [settleCachedFetch_ok_unreachable _ _ _ _ _ _ _ _ _ _ hready]
      rfl
    unfold CachedOpenF1ClientService.preloadReplayData CachedOpenF1ClientService.preloadFetches
    simp only [s1, s2, s3, s4, tD, tL, tI, tS]
  · intro hT
    have tL : settleCachedFetch CacheValue.laps "Failed to fetch lap data" 900
        (CachedOpenF1ClientService.generateLapsCacheKey
          { session_key := sessionKey, driver_number := none, lap_number := none }) .inFlight
        (⟨.CLOSED, 0, none, 4, 1, 0⟩ : CircuitBreakerService) redis o defaultTtl now
        .failure = (.ok [], ⟨.OPEN, 1, some now, 4, 1, 1⟩, redis) := by
      rw [settleCachedFetch_fail_reached _ _ _ _ _ _ _ _ _ (by dsimp only; omega) hready]
      unfold CircuitBreakerService.onFailure
      dsimp only
      rw [if_pos (by omega)]
    have tI : settleCachedFetch CacheValue.intervals "Failed to fetch interval data" 300
        (CacheService.generateSessionKey sessionKey "intervals") .inFlight
        (⟨.OPEN, 1, some now, 4, 1, 1⟩ : CircuitBreakerService) redis o defaultTtl now
        (.ok iData) = (.ok iData, ⟨.OPEN, 0, some now, 4, 2, 1⟩, redis) := by
      rw [settleCachedFetch_ok_unreachable _ _ _ _ _ _ _ _ _ _ hready]
      rfl
    have tS : settleCachedFetch CacheValue.stints "Failed to fetch stint data" 1800
        (CacheService.generateSessionKey sessionKey "stints") .inFlight
        (⟨.OPEN, 0, some now, 4, 2, 1⟩ : CircuitBreakerService) redis o defaultTtl now
        (.ok sData) = (.ok sData, ⟨.OPEN, 0, some now, 4, 3, 1⟩, redis) := by
      rw [settleCachedFetch_ok_unreachable _ _ _ _ _ _ _ _ _ _ hready]
      rfl
    unfold CachedOpenF1ClientService.preloadReplayData CachedOpenF1ClientService.preloadFetches
    simp only [s1, s2, s3, s4, tD, tL, tI, tS]

theorem preload_propagates_below_threshold_witness :
    ((CachedOpenF1ClientService.preloadReplayData
        ⟨CircuitBreakerService.init, exampleDownRedis⟩ defaultCircuitBreakerOptions 300 7 9222
        (.ok [exampleDriver]) .failure (.ok [exampleInterval]) (.ok [])).1 =
      .error (.httpException "Failed to fetch lap data" 503)) ∧
    ((CachedOpenF1ClientService.preloadReplayData
        ⟨CircuitBreakerService.init, exampleDownRedis⟩
        { failureThreshold := 1, recoveryTimeout := 30000, monitoringPeriod := 10000 } 300 7 9222
        (.ok [exampleDriver]) .failure (.ok [exampleInterval]) (.ok [])).1 =
      .ok { drivers := [exampleDriver], laps := [], intervals := [exampleInterval],
            stints := [] }) :=
  ⟨(preload_propagates_below_threshold defaultCircuitBreakerOptions 300 7 9222
      exampleDownRedis rfl [exampleDriver] [exampleInterval] []).1 (by decide),
   (preload_propagates_below_threshold
      { failureThreshold := 1, recoveryTimeout := 30000, monitoringPeriod := 10000 } 300 7 9222
      exampleDownRedis rfl [exampleDriver] [exampleInterval] []).2 (by decide)⟩

/-- C2 (counterexample): `fetchLaps` supplies the empty-list fallback, yet
from the reachable initial breaker state an upstream failure propagates to
the caller as the `HttpException`, because the failure counter (1) is below
the threshold (5). -/
theorem fetchLaps_propagation_counterexample :
    CircuitBreakerService.Reachable defaultCircuitBreakerOptions CircuitBreakerService.init ∧
    (OpenF1ClientService.fetchLaps CircuitBreakerService.init defaultCircuitBreakerOptions 0
        { session_key := 9158, driver_number := none, lap_number := none } .failure).result =
      .error (.httpException "Failed to fetch lap data" 503) :=
  ⟨.init, rfl⟩

/-- C2 (amended): a caller supplying the empty-list fallback never sees the
breaker-open rejection (an `OPEN`-state call returns the empty list), and an
upstream failure is converted to the empty list exactly when the incremented
failure counter has reached the threshold; below the threshold the
`HttpException` propagates. -/
theorem emptyFallback_caller_outcomes (b : CircuitBreakerService) (o : CircuitBreakerOptions)
    (now : Int) (params : LapsQueryParams) (resp : UpstreamResponse OpenF1Lap) :
    (b.state = .OPEN → b.shouldAttemptRecovery o now = false →
       (OpenF1ClientService.fetchLaps b o now params resp).result = .ok []) ∧
    (resp = .failure →
       (OpenF1ClientService.fetchLaps b o now params resp).invoked = true →
       ((o.failureThreshold ≤ b.failureCount + 1 →
           (OpenF1ClientService.fetchLaps b o now params resp).result = .ok []) ∧
        (b.failureCount + 1 < o.failureThreshold →
           (OpenF1ClientService.fetchLaps b o now params resp).result =
             .error (.httpException "Failed to fetch lap data" 503)))) := by
  constructor
  · intro h1 h2
    unfold OpenF1ClientService.fetchLaps
    rw [execute_open_reject _ _ _ _ _ h1 h2]
  · intro hresp hinv
    subst hresp
    exact execute_fails_with_fallback b o now _ [] hinv

theorem emptyFallback_caller_outcomes_witness :
    ((OpenF1ClientService.fetchLaps exampleOpenBreaker defaultCircuitBreakerOptions 100
        { session_key := 9158, driver_number := none, lap_number := none } .failure).result =
      .ok []) ∧
    ((OpenF1ClientService.fetchLaps CircuitBreakerService.init defaultCircuitBreakerOptions 0
        { session_key := 9158, driver_number := none, lap_number := none } .failure).result =
      .error (.httpException "Failed to fetch lap data" 503)) := by
  refine ⟨(emptyFallback_caller_outcomes exampleOpenBreaker defaultCircuitBreakerOptions 100
      _ .failure).1 (by decide) (by decide),
    ((emptyFallback_caller_outcomes CircuitBreakerService.init defaultCircuitBreakerOptions 0
      _ .failure).2 rfl (by decide)).2 (by decide)⟩

/-- C3 (code evaluated at the failing input): two laps fetch requests that
differ only in driver number but carry the same truthy lap number are mapped
by `generateLapsCacheKey` to the same cache key `session:9158:lap:5` - the
driver number is ignored whenever a lap number is present, so the cached
response of one driver is served for the other
(`DriversService.getDriverLaps` issues exactly such requests). -/
theorem lapsCacheKey_ignores_driver_when_lap_set :
    cacheKeyOf (.laps { session_key := 9158, driver_number := some 1, lap_number := some 5 }) =
      cacheKeyOf (.laps { session_key := 9158, driver_number := some 44, lap_number := some 5 }) ∧
    cacheKeyOf (.laps { session_key := 9158, driver_number := some 1, lap_number := some 5 }) =
      "session:9158:lap:5" ∧
    ({ session_key := 9158, driver_number := some 1, lap_number := some 5 } : LapsQueryParams) ≠
      { session_key := 9158, driver_number := some 44, lap_number := some 5 } := by
  refine ⟨rfl, ?_, by decide⟩
  rfl

/-- C4: driving the breaker with `N` consecutive failing calls from the
initial state, the state stays `CLOSED` after each of the first `N` calls
while `N` is below the threshold `T`, and becomes `OPEN` exactly when `N`
reaches `T` (for any positive threshold, any call times, any fallback). -/
theorem circuitBreaker_trips_at_threshold (o : CircuitBreakerOptions)
    (hT : 1 ≤ o.failureThreshold) (ts : Nat → Int) (e : JsError) {α : Type} (fb : Option α) :
    (∀ n, n < o.failureThreshold → (consecutiveFailures o ts e fb n).state = .CLOSED) ∧
    (consecutiveFailures o ts e fb o.failureThreshold).state = .OPEN := by
  constructor
  · intro n hn
    exact (consecutiveFailures_closed o ts e fb n hn).1
  · obtain ⟨m, hm⟩ : ∃ m, o.failureThreshold = m + 1 :=
      ⟨o.failureThreshold - 1, by omega⟩
    rw [hm]
    obtain ⟨hs, hc⟩ := consecutiveFailures_closed o ts e fb m (by omega)
    have hne : (consecutiveFailures o ts e fb m).state ≠ .OPEN := by
      rw [hs]; intro hx; exact CircuitBreakerState.noConfusion hx
    unfold consecutiveFailures
    rw [execute_fail_breaker _ _ _ _ _ hne]
    dsimp only
    rw [hc, if_pos (by omega)]

theorem circuitBreaker_trips_at_threshold_witness :
    (consecutiveFailures defaultCircuitBreakerOptions (fun _ => 0) (.jsError "boom")
      (none : Option (List OpenF1Lap)) 4).state = .CLOSED ∧
    (consecutiveFailures defaultCircuitBreakerOptions (fun _ => 0) (.jsError "boom")
      (none : Option (List OpenF1Lap)) 5).state = .OPEN := by
  have h := circuitBreaker_trips_at_threshold defaultCircuitBreakerOptions (by decide)
    (fun _ => 0) (.jsError "boom") (none : Option (List OpenF1Lap))
  exact ⟨h.1 4 (by decide), h.2⟩

/-- C5: in any reachable `OPEN` state, a call before the recovery interval
has elapsed since the last failure is rejected without invoking the
operation (fallback if supplied, breaker-open error otherwise, state still
`OPEN`); the first call after the interval invokes the operation exactly
once as a probe, and the breaker closes if the probe succeeds and reopens if
it fails. -/
theorem circuitBreaker_open_rejects_then_probes (o : CircuitBreakerOptions)
    (b : CircuitBreakerService) (hreach : CircuitBreakerService.Reachable o b)
    (hopen : b.state = .OPEN) (now : Int) {α : Type} (act : ActionOutcome α)
    (fb : Option α) (t : Int) (ht : b.lastFailureTime = some t) :
    (now - t < (o.recoveryTimeout : Int) →
       b.execute o now act fb =
         { result := (match fb with
             | some f => .ok f
             | none => .error (.jsError "Circuit Breaker is OPEN - Service temporarily unavailable")),
           breaker := { b with totalRequests := b.totalRequests + 1 },
           invoked := false }) ∧
    ((o.recoveryTimeout : Int) ≤ now - t →
       (b.execute o now act fb).invoked = true ∧
       (∀ v, act = .succeeds v →
          (b.execute o now act fb).breaker.state = .CLOSED ∧
          (b.execute o now act fb).result = .ok v) ∧
       (∀ e, act = .fails e → (b.execute o now act fb).breaker.state = .OPEN)) := by
  have hthr : o.failureThreshold ≤ b.failureCount :=
    (reachable_open_inv o b hreach (Or.inl hopen)).1
  rcases b with ⟨st, fc, lt, tr, sr, fr⟩
  obtain rfl : st = .OPEN := hopen
  obtain rfl : lt = some t := ht
  constructor
  · intro hlt
    apply execute_open_reject _ _ _ _ _ rfl
    rw [shouldAttemptRecovery_mk]
    simpa using (by omega : ¬ ((o.recoveryTimeout : Int) ≤ now - t))
  · intro hge
    unfold CircuitBreakerService.execute
    dsimp only
    rw [shouldAttemptRecovery_mk]
    simp only [decide_eq_true_eq, if_pos hge, if_pos rfl]
    unfold CircuitBreakerService.runOperation CircuitBreakerService.onSuccess
      CircuitBreakerService.onFailure
    dsimp only at hthr ⊢
    cases act with
    | succeeds v => simp
    | fails e =>
      cases fb <;> simp [Nat.le_succ_of_le hthr]

theorem circuitBreaker_open_rejects_then_probes_witness :
    ((exampleOpenBreaker.execute defaultCircuitBreakerOptions 100
        (ActionOutcome.succeeds ([] : List OpenF1Lap)) none).invoked = false) ∧
    ((exampleOpenBreaker.execute defaultCircuitBreakerOptions 30000
        (ActionOutcome.succeeds ([] : List OpenF1Lap)) none).invoked = true ∧
     (exampleOpenBreaker.execute defaultCircuitBreakerOptions 30000
        (ActionOutcome.succeeds ([] : List OpenF1Lap)) none).breaker.state = .CLOSED) := by
  have hreach : CircuitBreakerService.Reachable defaultCircuitBreakerOptions exampleOpenBreaker :=
    reachable_consecutiveFailures defaultCircuitBreakerOptions (fun _ => 0) (.jsError "boom")
      (none : Option (List OpenF1Lap)) 5
  have h1 := (circuitBreaker_open_rejects_then_probes defaultCircuitBreakerOptions
    exampleOpenBreaker hreach (by decide) 100
    (ActionOutcome.succeeds ([] : List OpenF1Lap)) none 0 (by decide)).1 (by decide)
  have h2 := (circuitBreaker_open_rejects_then_probes defaultCircuitBreakerOptions
    exampleOpenBreaker hreach (by decide) 30000
    (ActionOutcome.succeeds ([] : List OpenF1Lap)) none 0 (by decide)).2 (by decide)
  refine ⟨by rw [h1], h2.1, (h2.2.1 [] rfl).1⟩

/-- C6: for a call whose operation is invoked and fails, the fallback value
is returned to the caller iff a fallback was supplied and the failure
counter (after recording this failure) has reached the threshold; in every
other failing case the error propagates. -/
theorem circuitBreaker_fallback_iff_threshold (b : CircuitBreakerService)
    (o : CircuitBreakerOptions) (now : Int) (e : JsError) {α : Type} (fb : Option α)
    (hinv : (b.execute o now (.fails e) fb).invoked = true) :
    (∀ f, fb = some f →
       (o.failureThreshold ≤ b.failureCount + 1 →
          (b.execute o now (.fails e) fb).result = .ok f) ∧
       (b.failureCount + 1 < o.failureThreshold →
          (b.execute o now (.fails e) fb).result = .error e)) ∧
    (fb = none → (b.execute o now (.fails e) fb).result = .error e) ∧
    (∀ v, (b.execute o now (.fails e) fb).result = Except.ok v →
       fb = some v ∧ o.failureThreshold ≤ b.failureCount + 1) := by
  have hrun : ∃ b2 : CircuitBreakerService, b2.failureCount = b.failureCount ∧
      b.execute o now (.fails e) fb = b2.runOperation o now (.fails e) fb := by
    by_cases hopen : b.state = .OPEN
    · by_cases hrec : b.shouldAttemptRecovery o now = true
      · exact ⟨{ b with state := .HALF_OPEN, totalRequests := b.totalRequests + 1 }, rfl,
          execute_open_recover b o now _ fb hopen hrec⟩
      · rw [execute_open_reject b o now _ fb hopen (by simpa using hrec)] at hinv
        exact absurd hinv (by simp)
    · exact ⟨{ b with totalRequests := b.totalRequests + 1 }, rfl,
          execute_not_open b o now _ fb hopen⟩
  obtain ⟨b2, hfc, heq⟩ := hrun
  rw [heq]
  cases fb with
  | none =>
    rw [runOperation_fails_none]
    refine ⟨fun f hf => Option.noConfusion hf, fun _ => rfl, fun v hv => ?_⟩
    exact Except.noConfusion hv
  | some f =>
    rw [runOperation_fails_some, hfc]
    by_cases hc : o.failureThreshold ≤ b.failureCount + 1
    · rw [if_pos hc]
      refine ⟨fun g hg => ⟨fun _ => ?_, fun hlt => absurd hc (by omega)⟩,
        fun hnone => Option.noConfusion hnone, fun v hv => ?_⟩
      · obtain rfl : f = g := by injection hg
        rfl
      · obtain rfl : f = v := by injection hv
        exact ⟨rfl, hc⟩
    · rw [if_neg hc]
      refine ⟨fun g hg => ⟨fun hge => absurd hge hc, fun _ => rfl⟩,
        fun hnone => Option.noConfusion hnone, fun v hv => ?_⟩
      exact Except.noConfusion hv

theorem circuitBreaker_fallback_iff_threshold_witness :
    ((CircuitBreakerService.init.execute defaultCircuitBreakerOptions 0
        (.fails (.jsError "boom")) (some ([] : List OpenF1Lap))).result =
      .error (.jsError "boom")) := by
  have h := circuitBreaker_fallback_iff_threshold CircuitBreakerService.init
    defaultCircuitBreakerOptions 0 (.jsError "boom") (some ([] : List OpenF1Lap)) (by decide)
  exact ((h.1 [] rfl).2 (by decide))

/-- C7: when the backing store is unreachable (client not ready) or its
commands error, no cache operation raises: `get` returns `none`, `set` and
`del` leave the client untouched, `exists` returns `false`; and a cached
fetch issued while the store is unreachable behaves exactly like the plain
upstream fetch (cache-miss path), never raising due to the cache. -/
theorem cache_unreachable_is_safe :
    (∀ (c : RedisClient) (key : String), c.isReady = false → CacheService.get c key = none) ∧
    (∀ (c : RedisClient) (key : String), c.failing = true → CacheService.get c key = none) ∧
    (∀ (c : RedisClient) (defaultTtl : Nat) (key : String) (v : CacheValue)
       (options : Option CacheOptions), c.isReady = false →
       CacheService.set c defaultTtl key v options = c) ∧
    (∀ (c : RedisClient) (defaultTtl : Nat) (key : String) (v : CacheValue)
       (options : Option CacheOptions), c.failing = true →
       CacheService.set c defaultTtl key v options = c) ∧
    (∀ (c : RedisClient) (key : String), c.isReady = false → CacheService.del c key = c) ∧
    (∀ (c : RedisClient) (key : String), c.failing = true → CacheService.del c key = c) ∧
    (∀ (c : RedisClient) (key : String), c.isReady = false →
       CacheService.existsKey c key = false) ∧
    (∀ (c : RedisClient) (key : String), c.failing = true →
       CacheService.existsKey c key = false) ∧
    (∀ (st : CachedClientState) (o : CircuitBreakerOptions) (defaultTtl : Nat) (now : Int)
       (params : LapsQueryParams) (resp : UpstreamResponse OpenF1Lap),
       st.redis.isReady = false →
       CachedOpenF1ClientService.fetchLaps st o defaultTtl now params resp =
         ((OpenF1ClientService.fetchLaps st.breaker o now params resp).result,
          { breaker := (OpenF1ClientService.fetchLaps st.breaker o now params resp).breaker,
            redis := st.redis })) := by
  refine ⟨?_, ?_, ?_, ?_, ?_, ?_, ?_, ?_, ?_⟩
  · exact fun c key h => cacheGet_not_ready c key h
  · intro c key h
    unfold CacheService.get RedisClient.get
    rw [h]
    cases hc : c.isReady <;> simp
  · exact fun c ttl key v os h => cacheSet_not_ready c ttl key v os h
  · intro c ttl key v os h
    unfold CacheService.set RedisClient.setEx
    rw [h]
    cases hc : c.isReady <;> simp
  · intro c key h
    unfold CacheService.del
    rw [h]
    simp
  · intro c key h
    unfold CacheService.del RedisClient.del
    rw [h]
    cases hc : c.isReady <;> simp
  · intro c key h
    unfold CacheService.existsKey
    rw [h]
    simp
  · intro c key h
    unfold CacheService.existsKey RedisClient.existsCount
    rw [h]
    cases hc : c.isReady <;> simp
  · exact fun st o ttl now params resp h => cachedFetchLaps_unreachable st o ttl now params resp h

theorem cache_unreachable_is_safe_witness :
    CacheService.get exampleDownRedis "session:9158:laps" = none ∧
    CacheService.get exampleFailingRedis "session:9158:laps" = none ∧
    CacheService.set exampleDownRedis 300 "session:9158:laps" (.laps [])
      (some { ttl := some 900 }) = exampleDownRedis ∧
    CacheService.del exampleDownRedis "session:9158:laps" = exampleDownRedis ∧
    CacheService.existsKey exampleDownRedis "session:9158:laps" = false ∧
    CachedOpenF1ClientService.fetchLaps ⟨CircuitBreakerService.init, exampleDownRedis⟩
        defaultCircuitBreakerOptions 300 0
        { session_key := 9158, driver_number := none, lap_number := none } (.ok []) =
      ((OpenF1ClientService.fetchLaps CircuitBreakerService.init defaultCircuitBreakerOptions 0
          { session_key := 9158, driver_number := none, lap_number := none } (.ok [])).result,
       { breaker := (OpenF1ClientService.fetchLaps CircuitBreakerService.init
            defaultCircuitBreakerOptions 0
            { session_key := 9158, driver_number := none, lap_number := none } (.ok [])).breaker,
         redis := exampleDownRedis }) := by
  refine ⟨cache_unreachable_is_safe.1 exampleDownRedis _ rfl,
    cache_unreachable_is_safe.2.1 exampleFailingRedis _ rfl,
    cache_unreachable_is_safe.2.2.1 exampleDownRedis 300 _ _ _ rfl,
    cache_unreachable_is_safe.2.2.2.2.1 exampleDownRedis _ rfl,
    cache_unreachable_is_safe.2.2.2.2.2.2.1 exampleDownRedis _ rfl,
    cache_unreachable_is_safe.2.2.2.2.2.2.2.2 ⟨CircuitBreakerService.init, exampleDownRedis⟩
      defaultCircuitBreakerOptions 300 0 _ _ rfl⟩

/-- C8 (counterexample): no single field of the decoded segment satisfies
the claim's three equations at once - the performance label of the
unrecognized code 9999 is `neutral` (the string "unknown" appears only in
the color/meaning fields), while the field that is "personal_best" at 2051
is the performance label, whose color is "purple". -/
theorem decodeSegment_no_unknown_label :
    (F1TransformationsUtil.transformSegment 9999).performance = .neutral ∧
    (F1TransformationsUtil.transformSegment 9999).color = "unknown" ∧
    (F1TransformationsUtil.transformSegment 2051).performance = .personal_best ∧
    (F1TransformationsUtil.transformSegment 2051).color = "purple" ∧
    ("purple" : String) ≠ "personal_best" ∧
    SectorPerformance.neutral ≠ SectorPerformance.personal_best := by
  refine ⟨rfl, rfl, rfl, rfl, by decide, by decide⟩

/-- C8 (amended): the decoders return the reference values -
`transformDRS` maps 10 to enabled/available, 8 to available only, 0, 1 and
absent to neither, `transformSegment` maps 2051 to performance
personal-best, 2064 to pit, and the unrecognized 9999 to the
unknown-segment record whose performance is neutral; pit-lane detection
matches the reference arrays; and each decoder is total, mapping every
unrecognized or absent input to its default. -/
theorem decoder_reference_values :
    F1TransformationsUtil.transformDRS (some 10) = { enabled := true, available := true } ∧
    F1TransformationsUtil.transformDRS (some 8) = { enabled := false, available := true } ∧
    F1TransformationsUtil.transformDRS (some 0) = { enabled := false, available := false } ∧
    F1TransformationsUtil.transformDRS (some 1) = { enabled := false, available := false } ∧
    F1TransformationsUtil.transformDRS none = { enabled := false, available := false } ∧
    (F1TransformationsUtil.transformSegment 2051).performance = .personal_best ∧
    (F1TransformationsUtil.transformSegment 2064).performance = .pit ∧
    F1TransformationsUtil.transformSegment 9999 =
      { value := 9999, color := "unknown", meaning := "unknown segment",
        performance := .neutral } ∧
    F1TransformationsUtil.detectPitLane [some [2048, 2064, 2048]] = true ∧
    F1TransformationsUtil.detectPitLane [some [2048, 2049]] = false ∧
    (∀ v : Nat, v ∉ ([0, 1, 8, 10, 12, 14] : List Nat) →
       F1TransformationsUtil.transformDRS (some v) =
         { enabled := false, available := false }) ∧
    (∀ s : Nat, s ∉ ([0, 2048, 2049, 2051, 2064] : List Nat) →
       F1TransformationsUtil.transformSegment s =
         { value := s, color := "unknown", meaning := "unknown segment",
           performance := .neutral }) ∧
    F1TransformationsUtil.transformSegments none = [] ∧
    F1TransformationsUtil.detectPitLane [none, none, none] = false := by
  refine ⟨rfl, rfl, rfl, rfl, rfl, rfl, rfl, rfl, by decide, by decide, ?_, ?_, rfl, by decide⟩
  · intro v hv
    simp only [List.mem_cons, List.not_mem_nil, or_false, not_or] at hv
    obtain ⟨h0, h1, h8, h10, h12, h14⟩ := hv
    simp [F1TransformationsUtil.transformDRS, h0, h1, h8, h10, h12, h14]
  · intro s hs
    simp only [List.mem_cons, List.not_mem_nil, or_false, not_or] at hs
    obtain ⟨h0, h2048, h2049, h2051, h2064⟩ := hs
    simp [F1TransformationsUtil.transformSegment, h0, h2048, h2049, h2051, h2064]

theorem decoder_reference_values_witness :
    F1TransformationsUtil.transformDRS (some 7) = { enabled := false, available := false } ∧
    F1TransformationsUtil.transformSegment 12345 =
      { value := 12345, color := "unknown", meaning := "unknown segment",
        performance := .neutral } :=
  ⟨decoder_reference_values.2.2.2.2.2.2.2.2.2.2.1 7 (by decide),
   decoder_reference_values.2.2.2.2.2.2.2.2.2.2.2.1 12345 (by decide)⟩

/-- C9: for every (possibly absent) array of segment codes, the sector
performance analysis returns precisely the highest-priority performance
label present among the decoded segments, under personal-best over best over
pit over neutral, with neutral for the empty and the absent array. -/
theorem analyzeSectorPerformance_is_highest_priority :
    (∀ segments : Option (List Nat),
       F1TransformationsUtil.analyzeSectorPerformance segments =
         highestPriorityLabel
           ((F1TransformationsUtil.transformSegments segments).map
             (fun s => s.performance))) ∧
    F1TransformationsUtil.analyzeSectorPerformance none = .neutral ∧
    F1TransformationsUtil.analyzeSectorPerformance (some []) = .neutral := by
  refine ⟨?_, rfl, rfl⟩
  intro segments
  rw [highestPriorityLabel_eq_selChain]
  cases segments with
  | none => rfl
  | some l =>
    unfold F1TransformationsUtil.analyzeSectorPerformance selChain
    simp only [any_map_comp]

/-- C10: every `execute` call increments the total-request counter,
including `OPEN`-state rejections, which invoke nothing and leave the
success counter, consecutive-failure counter, failed-request counter, state
and last-failure time unchanged; hence in every reachable state
`successfulRequests + failedRequests ≤ totalRequests`, the inequality turns
strict at a rejected call, stays strict across subsequent calls, and only a
manual reset restores equality. -/
theorem circuitBreaker_counts_every_request :
    (∀ (b : CircuitBreakerService) (o : CircuitBreakerOptions) (now : Int) (α : Type)
       (act : ActionOutcome α) (fb : Option α),
       ((b.execute o now act fb).breaker.getStats).totalRequests =
         (b.getStats).totalRequests + 1) ∧
    (∀ (b : CircuitBreakerService) (o : CircuitBreakerOptions) (now : Int) (α : Type)
       (act : ActionOutcome α) (fb : Option α),
       b.state = .OPEN → b.shouldAttemptRecovery o now = false →
       (b.execute o now act fb).invoked = false ∧
       (b.execute o now act fb).breaker.successfulRequests = b.successfulRequests ∧
       (b.execute o now act fb).breaker.failureCount = b.failureCount ∧
       (b.execute o now act fb).breaker.failedRequests = b.failedRequests ∧
       (b.execute o now act fb).breaker.state = b.state ∧
       (b.execute o now act fb).breaker.lastFailureTime = b.lastFailureTime) ∧
    (∀ (o : CircuitBreakerOptions) (b : CircuitBreakerService),
       CircuitBreakerService.Reachable o b →
       (b.getStats).successfulRequests + (b.getStats).failedRequests ≤
         (b.getStats).totalRequests) ∧
    (∀ (b : CircuitBreakerService) (o : CircuitBreakerOptions) (now : Int) (α : Type)
       (act : ActionOutcome α) (fb : Option α),
       b.state = .OPEN → b.shouldAttemptRecovery o now = false →
       b.successfulRequests + b.failedRequests ≤ b.totalRequests →
       (b.execute o now act fb).breaker.successfulRequests
         + (b.execute o now act fb).breaker.failedRequests
         < (b.execute o now act fb).breaker.totalRequests) ∧
    (∀ (b : CircuitBreakerService) (o : CircuitBreakerOptions) (now : Int) (α : Type)
       (act : ActionOutcome α) (fb : Option α),
       b.successfulRequests + b.failedRequests < b.totalRequests →
       (b.execute o now act fb).breaker.successfulRequests
         + (b.execute o now act fb).breaker.failedRequests
         < (b.execute o now act fb).breaker.totalRequests) ∧
    (∀ b : CircuitBreakerService,
       ((b.reset).getStats).totalRequests =
         ((b.reset).getStats).successfulRequests + ((b.reset).getStats).failedRequests) := by
  refine ⟨?_, ?_, ?_, ?_, ?_, ?_⟩
  · intro b o now α act fb
    exact execute_totalRequests b o now act fb
  · intro b o now α act fb h1 h2
    rw [execute_open_reject b o now act fb h1 h2]
    exact ⟨rfl, rfl, rfl, rfl, rfl, rfl⟩
  · intro o b h
    exact reachable_sum_le o b h
  · intro b o now α act fb h1 h2 hle
    rw [execute_open_reject b o now act fb h1 h2]
    dsimp only
    omega
  · intro b o now α act fb hlt
    have h1 := execute_totalRequests b o now act fb
    have h2 := execute_counter_growth b o now act fb
    omega
  · intro b
    rfl

theorem circuitBreaker_counts_every_request_witness :
    ((exampleOpenBreaker.execute defaultCircuitBreakerOptions 100
        (ActionOutcome.succeeds ([] : List OpenF1Lap)) none).invoked = false) ∧
    ((exampleOpenBreaker.execute defaultCircuitBreakerOptions 100
        (ActionOutcome.succeeds ([] : List OpenF1Lap)) none).breaker.successfulRequests
      + (exampleOpenBreaker.execute defaultCircuitBreakerOptions 100
        (ActionOutcome.succeeds ([] : List OpenF1Lap)) none).breaker.failedRequests
      < (exampleOpenBreaker.execute defaultCircuitBreakerOptions 100
        (ActionOutcome.succeeds ([] : List OpenF1Lap)) none).breaker.totalRequests) := by
  refine ⟨((circuitBreaker_counts_every_request.2.1 exampleOpenBreaker
      defaultCircuitBreakerOptions 100 (List OpenF1Lap)
      (ActionOutcome.succeeds []) none (by decide) (by decide)).1),
    circuitBreaker_counts_every_request.2.2.2.1 exampleOpenBreaker
      defaultCircuitBreakerOptions 100 (List OpenF1Lap)
      (ActionOutcome.succeeds []) none (by decide) (by decide) (by decide)⟩

